import Mathlib

/-!
Verification of the booking-widget SDK core (calemly-react-sdk).

Each JavaScript function relevant to the verified properties is shallowly
embedded as an executable Lean definition, translated clause by clause from
the source.  JavaScript objects and `Map`s become association lists with
first-match lookup, wall-clock instants become natural numbers (milliseconds
since epoch), and asynchronous network interactions become explicit outcome
parameters together with effect traces recorded as lists.
-/

namespace Calemly

/-- First-match lookup in an association list (JS object property read /
`Map.get`). -/
def alookup {α : Type} (k : String) : List (String × α) → Option α
  | [] => none
  | (k', v) :: rest => if k' = k then some v else alookup k rest

/-- Binding update in an association list (JS `obj[k] = v` / `Map.set`):
overwrites the first existing binding for `k`, appends when absent. -/
def ainsert {α : Type} (k : String) (v : α) : List (String × α) → List (String × α)
  | [] => [(k, v)]
  | (k', v') :: rest => if k' = k then (k, v) :: rest else (k', v') :: ainsert k v rest

/-- `String.prototype.slice(0, n)` of the source, modelled on the character
list underlying the Lean string. -/
def sliceChars (s : String) (n : Nat) : String := ⟨s.data.take n⟩

/-! ## Identity utilities: `getOrCreateClientRequestId` (utils/bookingSource.js)

The `localStorage`-backed JSON store keyed by scope is modelled as an
association list; `createUuid()` is modelled by the explicit `fresh`
argument, `Date.now()` by the explicit `now` argument.  The function returns
the id together with the store that `persistStoredRequestIds` writes back,
modelling the case in which persistent storage is available. -/

/-- One persisted request-id entry, `{ id, expiresAt }`. -/
structure RequestIdEntry where
  id : String
  expiresAt : Nat
  deriving Repr, DecidableEq

/-- The parsed content of the `calemly-sdk:booking-request-ids` storage key. -/
abbrev RequestIdStore := List (String × RequestIdEntry)

/-- `REQUEST_ID_TTL_MS = 72 * 60 * 60 * 1000`. -/
def REQUEST_ID_TTL_MS : Nat := 72 * 60 * 60 * 1000

/-- `(scopeKey || 'default').toString().slice(0, 180)`: the scope key actually
used for lookup and storage. -/
def truncScope (scopeKey : String) : String :=
  sliceChars (if scopeKey = "" then "default" else scopeKey) 180

/-- `getOrCreateClientRequestId(scopeKey, ttlMs)`: prune expired entries
(`entry.expiresAt > now`), return the live entry's id when one exists
(`existingEntry?.id` is truthy), otherwise mint `fresh` with expiry
`now + ttlMs`; in both cases the cleaned store is persisted. -/
def getOrCreateClientRequestId (fresh : String) (now : Nat) (store : RequestIdStore)
    (scopeKey : String) (ttlMs : Nat := REQUEST_ID_TTL_MS) : String × RequestIdStore :=
  let safeScope := truncScope scopeKey
  let cleanedStore := store.filter (fun kv => now < kv.2.expiresAt)
  match alookup safeScope cleanedStore with
  | some entry =>
      if entry.id ≠ "" then
        (entry.id, cleanedStore)
      else
        (fresh, ainsert safeScope ⟨fresh, now + ttlMs⟩ cleanedStore)
  | none =>
      (fresh, ainsert safeScope ⟨fresh, now + ttlMs⟩ cleanedStore)

/-! ## Shared data model -/

/-- A bookable time interval (`{ start, end, startLocal, endLocal }`); the
source's `end` field is renamed `endTime` because `end` is a Lean keyword. -/
structure Slot where
  start : String
  endTime : String
  startLocal : Option String := none
  endLocal : Option String := none
  isPending : Bool := false
  deriving Repr, DecidableEq

/-- A date-keyed slot map (`{ "YYYY-MM-DD": [slot, ...] }`). -/
abbrev SlotMap := List (String × List Slot)

/-- `Array.prototype.map((item, index) => ...)`, index made explicit. -/
def mapWithIndexAux {α β : Type} (f : Nat → α → β) : Nat → List α → List β
  | _, [] => []
  | i, a :: rest => f i a :: mapWithIndexAux f (i + 1) rest

/-- `Array.prototype.map` with the element index as second callback argument. -/
def mapWithIndex {α β : Type} (f : Nat → α → β) (l : List α) : List β :=
  mapWithIndexAux f 0 l

/-! ## Booking-error normalization (`normalizeBookingError`, SchedulerProvider) -/

/-- The normalized transport error object.  A missing or falsy `message` is
modelled as `""`; `alternatives`/`suggestions` are `none` when the JS value is
not an array. -/
structure BookingError where
  message : String := ""
  code : Option String := none
  status : Option Nat := none
  retryAfter : Option Nat := none
  alternatives : Option (List Slot) := none
  suggestions : Option (List String) := none
  deriving Repr, DecidableEq

/-- The 429 branch's wait message (`retrySeconds` positive and finite). -/
def rateLimitMessage (retryAfter : Option Nat) : String :=
  match retryAfter with
  | some r =>
      if 0 < r then
        " Please wait about " ++ toString r ++ " seconds and try again."
      else
        " Please wait a moment and try again."
  | none => " Please wait a moment and try again."

/-- `normalizeBookingError(error)` from the SchedulerProvider, branch for
branch: OFFLINE, 429, SLOT_CONFLICT, SLOT_LOCKED, TEMPLATE_INVALID,
NO_SAVED_TEMPLATE, then the generic fallback. -/
def normalizeBookingError (e : BookingError) : BookingError :=
  if e.code = some "OFFLINE" then
    { e with
      message := "You appear to be offline. Reconnect to the internet and try booking again.",
      alternatives := some [] }
  else if e.status = some 429 then
    { e with
      message := "Too many booking attempts." ++ rateLimitMessage e.retryAfter,
      alternatives := some [] }
  else if e.code = some "SLOT_CONFLICT" then
    { e with
      message := "That slot was booked moments ago. Please choose another available time.",
      alternatives := some (e.alternatives.getD []) }
  else if e.code = some "SLOT_LOCKED" then
    { e with
      message := "That slot is currently being reserved. Try again in a few seconds.",
      alternatives := some [] }
  else if e.code = some "TEMPLATE_INVALID" then
    { e with
      message := if e.message ≠ "" then e.message
        else "Your saved template is no longer valid for this event.",
      alternatives := some [],
      suggestions := some (e.suggestions.getD []) }
  else if e.code = some "NO_SAVED_TEMPLATE" then
    { e with
      message := "Saved preferences were not found. Continue with the standard booking form.",
      alternatives := some [] }
  else
    { e with
      message := if e.message ≠ "" then e.message
        else "Failed to create booking. Please try again.",
      alternatives := some (e.alternatives.getD []) }

/-! ## Conflict-suggestion fallback (BookingForm effect, PaymentCheckout.js) -/

/-- One ranked alternative slot shown by the conflict resolver.  The source
spreads the plain slot's fields and adds `confidenceScore`/`explanation`;
here the spread slot is kept as a `slot` component. -/
structure ConflictSuggestion where
  slot : Slot
  confidenceScore : Int
  explanation : String
  deriving Repr, DecidableEq

/-- `toFallbackSuggestions()`: rank the inline alternatives in order with
synthetic confidence `Math.max(40, 75 - index * 10)`. -/
def toFallbackSuggestions (resolvedAlternatives : List Slot) : List ConflictSuggestion :=
  mapWithIndex
    (fun index option =>
      ⟨option, max 40 (75 - 10 * (index : Int)), "Available alternative slot"⟩)
    resolvedAlternatives

/-- How the conflict-suggestion service behaved: the action was not a
function, its promise rejected, or it resolved with a list. -/
inductive SuggestionServiceOutcome
  | absent
  | failed
  | returned (suggestions : List ConflictSuggestion)
  deriving Repr, DecidableEq

/-- The suggestion-loading effect's dispatch: service suggestions are used
when non-empty, otherwise the fallback ranking is synthesized (also when the
service is absent or fails). -/
def synthesizeConflictSuggestions (outcome : SuggestionServiceOutcome)
    (resolvedAlternatives : List Slot) : List ConflictSuggestion :=
  match outcome with
  | .absent => toFallbackSuggestions resolvedAlternatives
  | .failed => toFallbackSuggestions resolvedAlternatives
  | .returned result =>
      if 0 < result.length then result else toFallbackSuggestions resolvedAlternatives

/-! ## Step machine navigation (`goBack`, SchedulerProvider) -/

/-- `BOOKING_STEPS`. -/
inductive Step
  | SELECT_EVENT
  | SELECT_TIME
  | CONFIRM
  | SUCCESS
  deriving Repr, DecidableEq

/-- The slice of provider state read and written by `goBack`;
`selectionMode` is `embedSettings.selection_mode`, and `eventTypesCount`
records how many event types the embed offers for selection. -/
structure NavState where
  step : Step
  eventTypeId : Option String
  slots : SlotMap
  selectedSlot : Option Slot
  activeTemplate : Option String
  error : Option String
  alternatives : List Slot
  templateFallbackSuggestions : List String
  selectionMode : Option String
  eventTypesCount : Nat
  deriving Repr, DecidableEq

/-- Concrete provider state: CONFIRM step of a single-event embed offering
exactly one selectable event type. -/
def singleEventConfirmState : NavState :=
  { step := Step.CONFIRM
    eventTypeId := some "ev-1"
    slots := []
    selectedSlot := some ⟨"2026-01-01T10:00:00Z", "2026-01-01T10:30:00Z", none, none, false⟩
    activeTemplate := none
    error := none
    alternatives := []
    templateFallbackSuggestions := []
    selectionMode := some "single"
    eventTypesCount := 1 }

/-- `clearBookingError()`. -/
def clearBookingErrorNav (s : NavState) : NavState :=
  { s with error := none, alternatives := [], templateFallbackSuggestions := [] }

/-- `goBack()`: from CONFIRM always to SELECT_TIME; from SELECT_TIME to
SELECT_EVENT only when the embed's selection mode is not `'single'`, also
clearing the event type, slots, selection and template. -/
def goBack (s : NavState) : NavState :=
  if s.step = Step.CONFIRM then
    clearBookingErrorNav { s with step := Step.SELECT_TIME }
  else if s.step = Step.SELECT_TIME ∧ s.selectionMode ≠ some "single" then
    clearBookingErrorNav
      { s with
        step := Step.SELECT_EVENT
        eventTypeId := none
        slots := []
        selectedSlot := none
        activeTemplate := none }
  else s

/-! ## Form validation engine (CustomFormRenderer.js) -/

/-- A dynamic-form answer value: a scalar string or a checkbox-style array.
An absent answer is `Option.none` at the lookup site. -/
inductive FormValue
  | str (s : String)
  | arr (l : List String)
  deriving Repr, DecidableEq

/-- The current answer mapping (`answers`). -/
abbrev Answers := List (String × FormValue)

/-- One visibility condition (`{ fieldId, operator, value }`). -/
structure FieldCondition where
  fieldId : String
  operator : String
  value : String
  deriving Repr, DecidableEq

/-- A field's conditional-visibility rule; `showFlag` is the source's `show`
property (renamed: `show` is a Lean keyword). -/
structure ConditionalRule where
  showFlag : Bool
  conditions : List FieldCondition
  deriving Repr, DecidableEq

/-- One schema field. -/
structure FormField where
  id : String
  type : String
  required : Bool
  conditional : Option ConditionalRule := none
  options : List String := []
  deriving Repr, DecidableEq

/-- JS string coercion `String(answer || '')` of an optional answer value
(`String` of an array joins its elements with commas). -/
def jsAnswerString : Option FormValue → String
  | none => ""
  | some (.str s) => s
  | some (.arr l) => String.intercalate "," l

/-- `a.includes(b)` on strings: `b` occurs contiguously somewhere in `a`. -/
def jsIncludes (a b : String) : Bool :=
  (List.range (a.data.length + 1)).any fun i => b.data.isPrefixOf (a.data.drop i)

/-- Evaluation of a single visibility condition against the answers, one
case per `switch` arm of `isFieldVisible`; an unknown operator passes. -/
def evalCondition (answers : Answers) (condition : FieldCondition) : Bool :=
  let answer := alookup condition.fieldId answers
  match condition.operator with
  | "equals" =>
      match answer with
      | some (.arr l) => l.contains condition.value
      | _ => jsAnswerString answer == condition.value
  | "not_equals" =>
      match answer with
      | some (.arr l) => !(l.contains condition.value)
      | _ => jsAnswerString answer != condition.value
  | "contains" =>
      jsIncludes (jsAnswerString answer).toLower condition.value.toLower
  | "is_empty" =>
      match answer with
      | some (.arr l) => l.isEmpty
      | some (.str s) => s == ""
      | none => true
  | "is_not_empty" =>
      match answer with
      | some (.arr l) => !l.isEmpty
      | some (.str s) => s != ""
      | none => false
  | _ => true

/-- `isFieldVisible(field, answers)`: no rule, a falsy `show` flag or an
empty condition list means always visible; otherwise every condition must
hold. -/
def isFieldVisible (field : FormField) (answers : Answers) : Bool :=
  match field.conditional with
  | none => true
  | some rule =>
      if !rule.showFlag then true
      else if rule.conditions.isEmpty then true
      else rule.conditions.all (evalCondition answers)

/-- The truthiness test used by the required check:
`!value || (Array.isArray(value) && value.length === 0) || value === ''`. -/
def isEmptyFormAnswer : Option FormValue → Bool
  | none => true
  | some (.str s) => s == ""
  | some (.arr l) => l.isEmpty

/-- The plain falsiness test `!value` that skips the per-type checks. -/
def isFalsyFormAnswer : Option FormValue → Bool
  | none => true
  | some (.str s) => s == ""
  | some (.arr _) => false

/-- Whitespace class of the validation regexes. -/
def isWsChar (c : Char) : Bool :=
  c = ' ' ∨ c = '\t' ∨ c = '\n' ∨ c = '\r'

/-- The email regex `^[^\s@]+@[^\s@]+\.[^\s@]+$`: exactly one `@`, no
whitespace, a non-empty local part, and a dot strictly inside the domain
part. -/
def emailShapeTest (s : String) : Bool :=
  match s.splitOn "@" with
  | [a, b] =>
      !a.isEmpty && a.data.all (fun c => !isWsChar c)
        && b.data.all (fun c => !isWsChar c)
        && ((b.data.drop 1).dropLast.contains '.')
  | _ => false

/-- Approximation of `new URL(value)` succeeding: an absolute URL starts
with an ASCII-letter scheme followed by a colon. -/
def urlParses (s : String) : Bool :=
  match s.data with
  | [] => false
  | c :: rest => c.isAlpha && rest.contains ':'

/-- The phone regex `^[\d\s\-+()]+$`. -/
def phoneShapeTest (s : String) : Bool :=
  !s.isEmpty && s.data.all fun c =>
    c.isDigit || isWsChar c || c = '-' || c = '+' || c = '(' || c = ')'

/-- The per-type value check of `validateFormAnswers`, run only on truthy
values: email shape, URL parse, phone character class. -/
def typeErrorFor (field : FormField) (v : FormValue) : Option String :=
  if field.type == "email" then
    if emailShapeTest (jsAnswerString (some v)) then none
    else some "Please enter a valid email address"
  else if field.type == "url" then
    if urlParses (jsAnswerString (some v)) then none
    else some "Please enter a valid URL"
  else if field.type == "phone" then
    if phoneShapeTest (jsAnswerString (some v)) then none
    else some "Please enter a valid phone number"
  else none

/-- The error entries one field contributes inside the `forEach` of
`validateFormAnswers`: nothing when invisible, the required error when
required and empty, otherwise the per-type error on a truthy value. -/
def fieldErrorsFor (answers : Answers) (field : FormField) : List (String × String) :=
  if !isFieldVisible field answers then []
  else
    let value := alookup field.id answers
    if field.required && isEmptyFormAnswer value then
      [(field.id, "This field is required")]
    else if isFalsyFormAnswer value then []
    else
      match value with
      | some v =>
          match typeErrorFor field v with
          | some msg => [(field.id, msg)]
          | none => []
      | none => []

/-- The accumulated `errors` object of `validateFormAnswers`, one field at a
time in schema order. -/
def collectFormErrors : List FormField → Answers → List (String × String)
  | [], _ => []
  | f :: fs, answers => fieldErrorsFor answers f ++ collectFormErrors fs answers

/-- `validateFormAnswers(formSchema, answers)`, with the schema given as its
`fields` list: `{ isValid, errors }`. -/
def validateFormAnswers (fields : List FormField) (answers : Answers) :
    Bool × List (String × String) :=
  let errors := collectFormErrors fields answers
  (errors.isEmpty, errors)

/-! ## Slot-availability cache (`loadSlots` / `invalidateAvailability`,
SchedulerProvider) -/

/-- `String.prototype.startsWith`, on the underlying character lists. -/
def strStartsWith (s pre : String) : Bool :=
  pre.data.isPrefixOf s.data

/-- `Array.prototype.join(':')`. -/
def joinColon : List String → String
  | [] => ""
  | [s] => s
  | s :: rest => s ++ ":" ++ joinColon rest

/-- The availability cache key
`[eventType.id, startDate, endDate, userTimezone].join(':')`. -/
def mkCacheKey (eventTypeId startDate endDate timezone : String) : String :=
  joinColon [eventTypeId, startDate, endDate, timezone]

/-- One availability cache entry `{ slots, expiresAt }`. -/
structure CacheEntry where
  slots : SlotMap
  expiresAt : Nat
  deriving Repr, DecidableEq

/-- The interaction of `api.getSlots` with the network for one fetch. -/
inductive SlotFetchOutcome
  | ok (slots : SlotMap)
  | fail (msg : String)
  deriving Repr, DecidableEq

/-- The provider state `loadSlots` touches: the `availabilityCacheRef` map,
the rendered `slots`, and an explicit counter of network fetches performed. -/
structure AvailabilityState where
  cache : List (String × CacheEntry)
  slots : SlotMap
  networkCalls : Nat
  slotsError : Option String
  deriving Repr, DecidableEq

/-- `loadSlots({ force })`: no-op without an event type id; an unexpired
cache entry is served without a network call unless `force` is set; a miss
performs the fetch, renders the result and repopulates the cache with expiry
`Date.now() + cacheTtlMs`. -/
def loadSlots (st : AvailabilityState) (force : Bool)
    (eventTypeId startDate endDate timezone : String) (now cacheTtlMs : Nat)
    (outcome : SlotFetchOutcome) : AvailabilityState :=
  if eventTypeId = "" then st
  else
    let cacheKey := mkCacheKey eventTypeId startDate endDate timezone
    let cachedHit : Option CacheEntry :=
      if force then none
      else
        match alookup cacheKey st.cache with
        | some entry => if now < entry.expiresAt then some entry else none
        | none => none
    match cachedHit with
    | some entry => { st with slots := entry.slots }
    | none =>
        match outcome with
        | .ok nextSlots =>
            { st with
              slots := nextSlots,
              networkCalls := st.networkCalls + 1,
              cache := ainsert cacheKey ⟨nextSlots, now + cacheTtlMs⟩ st.cache }
        | .fail msg =>
            { st with networkCalls := st.networkCalls + 1, slotsError := some msg }

/-- `invalidateAvailability(eventTypeId)`: clear everything when called with
no id, otherwise delete every cache entry whose key starts with
`eventTypeId + ':'`. -/
def invalidateAvailability (eventTypeId : Option String)
    (cache : List (String × CacheEntry)) : List (String × CacheEntry) :=
  match eventTypeId with
  | none => []
  | some id => cache.filter fun kv => !(strStartsWith kv.1 (id ++ ":"))

/-- The cache effect of the success branch of `createBookingForContext`,
which runs `invalidateAvailability(scopedEventType.id)`. -/
def bookingSuccessInvalidate (st : AvailabilityState) (eventTypeId : String) :
    AvailabilityState :=
  { st with cache := invalidateAvailability (some eventTypeId) st.cache }

/-! ## API client retry loop (`request`, api/client.js)

The `while (attempt <= retryConfig.maxRetries)` loop is embedded with an
explicit fuel equal to the remaining loop iterations; `Math.random()` draws
are an explicit rational stream indexed by the attempt whose backoff consumes
them, and each `fetch` interaction is an explicit outcome per attempt. -/

/-- `calculateBackoff(attempt, baseDelay = 1000, maxDelay = 12000)`:
`Math.min(baseDelay * 2 ** attempt, maxDelay) + Math.random() * 350`. -/
def calculateBackoff (attempt : Nat) (rand : Nat → ℚ)
    (baseDelay : Nat := 1000) (maxDelay : Nat := 12000) : ℚ :=
  ((min (baseDelay * 2 ^ attempt) maxDelay : ℕ) : ℚ) + rand attempt * 350

/-- What one `fetch` attempt produced: a thrown network error, or a response
with its HTTP status and the normalized `retryAfter` of its error object
(`data?.retryAfter || parseRetryAfterHeader(headers.get('Retry-After'))`). -/
inductive FetchOutcome
  | netFail
  | resp (status : Nat) (retryAfter : Option Nat)
  deriving Repr, DecidableEq

/-- The terminal result of one `request` run. -/
inductive ReqResult
  | success
  | httpError (status : Nat)
  | netError
  | offline
  deriving Repr, DecidableEq

/-- The observable behaviour of one `request` run: terminal result, number of
`fetch` calls performed, and the milliseconds slept before each retry
(`delays.get? i` precedes fetch number `i + 2`). -/
structure ReqTrace where
  result : ReqResult
  fetches : Nat
  delays : List ℚ
  deriving Repr, DecidableEq

/-- The 429 wait: `error.retryAfter ? error.retryAfter * 1000 :
calculateBackoff(attempt)` (a zero `retryAfter` is falsy). -/
def waitFor429 (retryAfter : Option Nat) (attempt : Nat) (rand : Nat → ℚ) : ℚ :=
  match retryAfter with
  | some r => if r = 0 then calculateBackoff attempt rand else ((r * 1000 : ℕ) : ℚ)
  | none => calculateBackoff attempt rand

/-- The retry loop of `request`.  Branches, in source order: a successful
response returns; a 429 with retry budget left (and `retryOn429`) sleeps the
Retry-After-derived wait and retries; a thrown client error
(`400 <= status < 500`, not 429) is terminal; any other failure (network
error, 5xx, non-ok response) sleeps the exponential backoff and retries while
budget remains, else is terminal. -/
def requestGo (outcomes : Nat → FetchOutcome) (rand : Nat → ℚ)
    (maxRetries : Nat) (retryOn429 : Bool) : Nat → Nat → ReqTrace
  | _, 0 => ⟨.netError, 0, []⟩
  | attempt, fuel + 1 =>
      match outcomes attempt with
      | .netFail =>
          if attempt < maxRetries then
            let rest := requestGo outcomes rand maxRetries retryOn429 (attempt + 1) fuel
            ⟨rest.result, rest.fetches + 1, calculateBackoff attempt rand :: rest.delays⟩
          else ⟨.netError, 1, []⟩
      | .resp status retryAfter =>
          if 200 ≤ status ∧ status < 300 then ⟨.success, 1, []⟩
          else if status = 429 ∧ retryOn429 = true ∧ attempt < maxRetries then
            let rest := requestGo outcomes rand maxRetries retryOn429 (attempt + 1) fuel
            ⟨rest.result, rest.fetches + 1, waitFor429 retryAfter attempt rand :: rest.delays⟩
          else if 400 ≤ status ∧ status < 500 ∧ status ≠ 429 then
            ⟨.httpError status, 1, []⟩
          else if attempt < maxRetries then
            let rest := requestGo outcomes rand maxRetries retryOn429 (attempt + 1) fuel
            ⟨rest.result, rest.fetches + 1, calculateBackoff attempt rand :: rest.delays⟩
          else ⟨.httpError status, 1, []⟩

/-- `request(endpoint, { retryConfig: { maxRetries: 2, retryOn429: true } })`:
offline detection fails without any fetch, otherwise the loop starts at
attempt 0 with `maxRetries + 1` iterations available. -/
def request (offline : Bool) (outcomes : Nat → FetchOutcome) (rand : Nat → ℚ)
    (maxRetries : Nat := 2) (retryOn429 : Bool := true) : ReqTrace :=
  if offline then ⟨.offline, 0, []⟩
  else requestGo outcomes rand maxRetries retryOn429 0 (maxRetries + 1)

/-- The sleep the loop performs after attempt `x` fails, when it retries
(with `retryOn429` set): the Retry-After-derived wait after a 429, the
exponential backoff with jitter otherwise. -/
def expectedDelay (outcomes : Nat → FetchOutcome) (rand : Nat → ℚ) (x : Nat) : ℚ :=
  match outcomes x with
  | .netFail => calculateBackoff x rand
  | .resp s ra => if s = 429 then waitFor429 ra x rand else calculateBackoff x rand

/-- A concrete attempt-outcome schedule: a 5xx failure, then a rate limit
carrying `Retry-After: 7`, then success. -/
def c5WitnessOutcomes : Nat → FetchOutcome
  | 0 => .resp 500 none
  | 1 => .resp 429 (some 7)
  | _ => .resp 201 none

/-- A concrete `Math.random()` stream. -/
def c5WitnessRand : Nat → ℚ := fun _ => 1 / 2

/-! ## Submission gating (`createBookingForContext` and the submit button)

The at-most-one-in-flight argument concerns interleavings of submit triggers
with the awaits inside `createBookingForContext`, so that function is
embedded here as a small-step process: a running invocation is either still
resolving its submission metadata (the awaits before the network call) or
awaiting its `api.createBooking` response.  The UI submit trigger respects
the submit button's `disabled` attribute (a disabled button fires no submit
event), which is recomputed from `isSubmitting` between discrete events. -/

/-- The phase of one running `createBookingForContext` invocation. -/
inductive SubPhase
  | resolvingMeta
  | awaitingCreate
  deriving Repr, DecidableEq

/-- The per-render context a submit trigger sees. -/
structure SubmitCtx where
  isValid : Bool
  isCreatingPayment : Bool
  isPaidEvent : Bool
  isLoadingPaymentInfo : Bool
  hasSlotAndEventType : Bool
  deriving Repr, DecidableEq

/-- The submit button's `disabled={!isValid || resolvedIsLoading ||
isCreatingPayment || (isPaidEvent && isLoadingPaymentInfo)}`. -/
def submitButtonDisabled (ctx : SubmitCtx) (isSubmitting : Bool) : Bool :=
  !ctx.isValid || isSubmitting || ctx.isCreatingPayment
    || (ctx.isPaidEvent && ctx.isLoadingPaymentInfo)

/-- The orchestrator state the gating argument observes: running
invocations with their phases, the UI-facing `isSubmitting` flag, and a
counter of `api.createBooking` network calls issued. -/
structure SubmitState where
  procs : List SubPhase
  isSubmitting : Bool
  bookingCalls : Nat
  deriving Repr, DecidableEq

/-- Events of the submission flow: a submit trigger; resolution of a running
invocation's pre-call awaits (`veto` when `onBeforeBook` returned `false`);
and settlement of its `api.createBooking` call. -/
inductive SubmitEvent
  | trigger
  | metaResolved (veto : Bool)
  | createSettled
  deriving Repr, DecidableEq

/-- Replace the first element equal to `target` by `new` (dropping it when
`new` is `none`); `none` when no element matches. -/
def replaceFirst (target : SubPhase) (new : Option SubPhase) :
    List SubPhase → Option (List SubPhase)
  | [] => none
  | p :: rest =>
      if p = target then
        some (match new with
          | some q => q :: rest
          | none => rest)
      else (replaceFirst target new rest).map (p :: ·)

/-- One scheduler step.  A trigger starts a new `createBookingForContext`
invocation only when the submit button was enabled and a slot and event type
are present (otherwise the function returns before `setIsSubmitting(true)`);
the started invocation sets `isSubmitting`.  Meta resolution either issues
the booking-creation call or, on an `onBeforeBook` veto, ends the invocation
via its catch/finally; call settlement ends it via its finally. -/
def stepSubmit (ctx : SubmitCtx) (s : SubmitState) : SubmitEvent → SubmitState
  | .trigger =>
      if submitButtonDisabled ctx s.isSubmitting then s
      else if !ctx.hasSlotAndEventType then s
      else { s with procs := SubPhase.resolvingMeta :: s.procs, isSubmitting := true }
  | .metaResolved veto =>
      match replaceFirst .resolvingMeta
          (if veto then none else some .awaitingCreate) s.procs with
      | none => s
      | some procs' =>
          if veto then { s with procs := procs', isSubmitting := false }
          else { s with procs := procs', bookingCalls := s.bookingCalls + 1 }
  | .createSettled =>
      match replaceFirst .awaitingCreate none s.procs with
      | none => s
      | some procs' => { s with procs := procs', isSubmitting := false }

/-- Run a sequence of submission events. -/
def runSubmit (ctx : SubmitCtx) : SubmitState → List SubmitEvent → SubmitState
  | s, [] => s
  | s, e :: es => runSubmit ctx (stepSubmit ctx s e) es

/-- The initial state: nothing running, nothing submitted. -/
def initSubmitState : SubmitState := ⟨[], false, 0⟩

/-- The gating invariant: at most one invocation runs, and `isSubmitting` is
set exactly while one does. -/
def SubmitInv (s : SubmitState) : Prop :=
  s.procs.length ≤ 1 ∧ (s.isSubmitting = true ↔ s.procs ≠ [])

/-! ## Booking form submission (`handleSubmit`, PaymentCheckout.js) -/

/-- The payload `buildBasePayload()` assembles from the entered form state.
Template-linkage fields (`template_id`, consent flags, `inline_template`)
are not modelled; no verified property depends on them.  The `timezone`
field models a read of `payload.timezone` (never set by this builder). -/
structure GuestPayload where
  guest_name : String
  guest_email : String
  guest_phone : Option String := none
  guest_notes : Option String := none
  answers : Option Answers := none
  honeypot : String := ""
  timezone : Option String := none
  deriving Repr, DecidableEq

/-- The entered form state `handleSubmit` reads and writes. -/
structure BookingFormState where
  name : String
  email : String
  phone : String
  notes : String
  answers : Answers
  honeypot : String
  fieldErrors : List (String × String)
  inlineError : String
  showBrief : Bool
  briefError : Option String
  briefPendingPayload : Option GuestPayload
  deriving Repr, DecidableEq

/-- The per-event context `handleSubmit` and `submitOrStartPayment` read. -/
structure CheckoutCtx where
  isPaidEvent : Bool
  eventTypeId : String
  hasResolvedSlot : Bool
  hasBrief : Bool
  formSchemaFields : List FormField
  selectedProvider : String
  deriving Repr, DecidableEq

/-- The outward calls `handleSubmit` can initiate. -/
inductive FormEffect
  | submitBookingCall (payload : GuestPayload)
  | createPayPalOrderCall (eventTypeId guestEmail guestName : String)
  | createPaymentIntentCall (eventTypeId guestEmail guestName : String)
  deriving Repr, DecidableEq

/-- `isValidEmail`: the unanchored regex `.+@.+\..+` tested against the
trimmed value — some character before an `@`, at least one character
between the `@` and a later `.`, and at least one character after it. -/
def isValidEmail (value : String) : Bool :=
  let t := value.trim.data
  (List.range t.length).any fun q =>
    decide (t.getD q ' ' = '@' ∧ 0 < q)
      && (List.range t.length).any fun r =>
        decide (t.getD r ' ' = '.' ∧ q + 1 < r ∧ r + 1 < t.length)

/-- `buildBasePayload()` (template-linkage fields elided, see
`GuestPayload`). -/
def buildBasePayload (st : BookingFormState) : GuestPayload :=
  { guest_name := st.name.trim
    guest_email := st.email.trim.toLower
    guest_phone := if st.phone.trim = "" then none else some st.phone.trim
    guest_notes := if st.notes.trim = "" then none else some st.notes.trim
    answers := if 0 < st.answers.length then some st.answers else none
    honeypot := st.honeypot }

/-- `submitOrStartPayment(payload)`: free events submit the booking
directly; paid events create a PayPal order or a Stripe payment intent
according to the selected provider.  Only the initiated call is modelled;
what happens on its settlement is outside this claim. -/
def submitOrStartPayment (ctx : CheckoutCtx) (st : BookingFormState)
    (payload : GuestPayload) : BookingFormState × List FormEffect :=
  if !ctx.isPaidEvent || ctx.eventTypeId = "" || !ctx.hasResolvedSlot then
    (st, [FormEffect.submitBookingCall payload])
  else if ctx.selectedProvider = "paypal" then
    (st, [FormEffect.createPayPalOrderCall ctx.eventTypeId
      payload.guest_email payload.guest_name])
  else
    (st, [FormEffect.createPaymentIntentCall ctx.eventTypeId
      payload.guest_email payload.guest_name])

/-- `handleSubmit(event)`: the honeypot guard, local validation, the brief
interstitial, then submission or payment initiation. -/
def handleSubmit (ctx : CheckoutCtx) (st : BookingFormState) :
    BookingFormState × List FormEffect :=
  if st.honeypot ≠ "" then (st, [])
  else
    let nextErrors :=
      (if st.name.trim = "" then [("name", "Please enter your name")] else [])
      ++ (if !isValidEmail st.email then
            [("email", "Please enter a valid email address")] else [])
      ++ (if 0 < ctx.formSchemaFields.length then
            (validateFormAnswers ctx.formSchemaFields st.answers).2 else [])
    if nextErrors ≠ [] then ({ st with fieldErrors := nextErrors }, [])
    else
      let st1 := { st with fieldErrors := [], inlineError := "" }
      let payload := buildBasePayload st
      if ctx.hasBrief ∧ st.showBrief = false then
        ({ st1 with
            briefPendingPayload := some payload
            briefError := none
            showBrief := true }, [])
      else submitOrStartPayment ctx st1 payload

/-! ## PayPal-return resumption (`completePayPalBooking` and the return
effect, SchedulerProvider)

The resumption flow is one sequential async chain, so
`createBookingForContext` is embedded here as an atomic function from state
and environment to state, effect trace and result (its internal awaits need
no interleaving for these properties; the gating model above covers those).
`sessionStorage` is the `pendingStore` field, the page URL's callback query
parameters are the `url` field, and the one-shot ref is
`paypalReturnHandled`. -/

/-- A bookable meeting definition; only the attributes this flow reads are
modelled. -/
structure EventType where
  id : String
  name : String := ""
  slug : Option String := none
  duration : Nat := 30
  deriving Repr, DecidableEq

/-- The durable snapshot persisted before redirecting to PayPal; fields are
optional because the record is parsed back from storage. -/
structure PendingPayPalBooking where
  orderId : String
  payload : Option GuestPayload
  slot : Option Slot
  eventType : Option EventType
  userTimezone : Option String
  deriving Repr, DecidableEq

/-- The `guestData` argument of `createBookingForContext`: the guest payload
spread together with the optional keys the PayPal path adds. -/
structure GuestData where
  guest : GuestPayload
  timezone : Option String := none
  paypal_order_id : Option String := none
  paypal_capture_id : Option String := none
  deriving Repr, DecidableEq

/-- The request body handed to `api.createBooking`: the base fields, the
guest data spread over them (its `timezone` overriding the default), and the
resolved submission metadata (kept opaque). -/
structure BookingRequest where
  event_type_id : String
  start_time : String
  end_time : String
  timezone : String
  guest : GuestPayload
  paypal_order_id : Option String := none
  paypal_capture_id : Option String := none
  meta : String := ""
  deriving Repr, DecidableEq

/-- The PayPal callback query parameters of the current URL. -/
structure UrlState where
  token : Option String
  payerId : Option String
  cancelled : Bool
  deriving Repr, DecidableEq

/-- Provider state touched by the resumption flow. -/
structure OrchState where
  step : Step
  eventType : Option EventType
  selectedSlot : Option Slot
  userTimezone : String
  slots : SlotMap
  confirmedBooking : Option String
  error : Option String
  alternatives : List Slot
  templateFallbackSuggestions : List String
  activeTemplate : Option String
  isSubmitting : Bool
  pendingStore : Option PendingPayPalBooking
  url : UrlState
  paypalReturnHandled : Bool
  deriving Repr, DecidableEq

/-- The outward interactions of the resumption flow, in order. -/
inductive OrchEffect
  | captureCall (orderId : String) (payerId : Option String)
  | createBookingCall (req : BookingRequest)
  | deletePendingRecord
  | clearReturnParams
  deriving Repr, DecidableEq

/-- How `api.capturePayPalOrder` settled: rejected, or resolved with the
normalized capture id (`captureId || capture_id || id`), a `success` flag
and an `error` message. -/
inductive CaptureOutcome
  | throws (msg : String)
  | returns (captureId : Option String) (success : Option Bool) (errMsg : Option String)
  deriving Repr, DecidableEq

/-- How `api.createBooking` settled. -/
inductive CreateBookingOutcome
  | ok (bookingId : String)
  | fail (e : BookingError)
  deriving Repr, DecidableEq

/-- Behaviour of the configured `onBeforeBook` hook: not configured, a
passthrough return, or a `false` return (cancellation).  The payload-merge
return is not modelled; no verified property exercises it. -/
inductive BeforeBookBehavior
  | absent
  | proceed
  | veto
  deriving Repr, DecidableEq

/-- The environment of one resumption run: how the two network calls settle,
the resolved submission metadata, and the hook behaviour. -/
structure PayPalEnv where
  capture : CaptureOutcome
  createBooking : CreateBookingOutcome
  meta : String
  beforeBook : BeforeBookBehavior
  deriving Repr, DecidableEq

/-- JS truthiness of an optional string (absent and `""` are falsy). -/
def jsTruthy : Option String → Bool
  | some s => s ≠ ""
  | none => false

/-- `mutateSlotState(slot, fn)`: rewrite the day list of the slot's date. -/
def mutateSlotState (slots : SlotMap) (slot : Slot) (f : List Slot → List Slot) :
    SlotMap :=
  if slot.start = "" then slots
  else
    let dateStr := (slot.start.splitOn "T").headD ""
    ainsert dateStr (f ((alookup dateStr slots).getD [])) slots

/-- `markSlotPending(slot)`. -/
def markSlotPending (slots : SlotMap) (slot : Slot) : SlotMap :=
  mutateSlotState slots slot (List.map fun item =>
    if item.start = slot.start then { item with isPending := true } else item)

/-- `revertPendingSlot(slot)`. -/
def revertPendingSlot (slots : SlotMap) (slot : Slot) : SlotMap :=
  mutateSlotState slots slot (List.map fun item =>
    if item.start = slot.start then { item with isPending := false } else item)

/-- `removeBookedSlot(slot)`. -/
def removeBookedSlot (slots : SlotMap) (slot : Slot) : SlotMap :=
  mutateSlotState slots slot (List.filter fun item => item.start != slot.start)

/-- `createBookingForContext({ guestData, slot, eventTypeOverride })` as one
atomic step: precondition check, optimistic pending mark, payload assembly
(base fields, guest data spread, submission metadata), the optional
`onBeforeBook` veto, then the `api.createBooking` call with its success and
failure state updates.  Returns the new state, the effect trace, and `none`
on success or the surfaced error message on failure.  The availability-cache
invalidation of the success branch is modelled on `AvailabilityState`. -/
def createBookingForContext (env : PayPalEnv) (st : OrchState)
    (guestData : GuestData) (slotOverride : Option Slot)
    (eventTypeOverride : Option EventType) :
    OrchState × List OrchEffect × Option String :=
  match slotOverride <|> st.selectedSlot, eventTypeOverride <|> st.eventType with
  | some sl, some et =>
      if et.id = "" then
        (st, [], some "Select an event time before submitting the booking form.")
      else
        let st1 := { st with
          isSubmitting := true
          error := none
          alternatives := []
          templateFallbackSuggestions := []
          slots := markSlotPending st.slots sl }
        let req : BookingRequest :=
          { event_type_id := et.id
            start_time := sl.start
            end_time := sl.endTime
            timezone := guestData.timezone.getD st.userTimezone
            guest := guestData.guest
            paypal_order_id := guestData.paypal_order_id
            paypal_capture_id := guestData.paypal_capture_id
            meta := env.meta }
        match env.beforeBook with
        | .veto =>
            let normalized := normalizeBookingError
              { message := "Booking cancelled before submit.",
                code := some "BOOKING_CANCELLED" }
            ({ st1 with
                slots := revertPendingSlot st1.slots sl
                error := some normalized.message
                alternatives := normalized.alternatives.getD []
                templateFallbackSuggestions := normalized.suggestions.getD []
                isSubmitting := false }, [], some normalized.message)
        | _ =>
            match env.createBooking with
            | .ok bookingId =>
                ({ st1 with
                    slots := removeBookedSlot st1.slots sl
                    confirmedBooking := some bookingId
                    selectedSlot := none
                    eventType := st1.eventType <|> some et
                    activeTemplate := none
                    templateFallbackSuggestions := []
                    step := Step.SUCCESS
                    isSubmitting := false },
                  [OrchEffect.createBookingCall req], none)
            | .fail e =>
                let normalized := normalizeBookingError e
                ({ st1 with
                    slots := revertPendingSlot st1.slots sl
                    error := some normalized.message
                    alternatives := normalized.alternatives.getD []
                    templateFallbackSuggestions := normalized.suggestions.getD []
                    isSubmitting := false },
                  [OrchEffect.createBookingCall req], some normalized.message)
  | _, _ => (st, [], some "Select an event time before submitting the booking form.")

/-- `completePayPalBooking({ pendingBooking, payerId })`: validate the
snapshot, capture the order, then create the booking from the snapshotted
guest payload, slot and event type with the order and capture ids attached;
delete the pending record only on success.  Returns the new state, effect
trace, and `none` on success or the failure message. -/
def completePayPalBooking (env : PayPalEnv) (st : OrchState)
    (pendingBooking : PendingPayPalBooking) (payerId : Option String) :
    OrchState × List OrchEffect × Option String :=
  match pendingBooking.payload, pendingBooking.slot, pendingBooking.eventType with
  | some guestPayload, some pendingSlot, some pendingEventType =>
      if pendingBooking.orderId = "" ∨ pendingSlot.start = ""
          ∨ pendingSlot.endTime = "" ∨ pendingEventType.id = "" then
        (st, [], some "Saved PayPal booking context is invalid. Please book again.")
      else
        match env.capture with
        | .throws msg =>
            let normalized := normalizeBookingError { message := msg }
            ({ st with
                error := some normalized.message
                alternatives := normalized.alternatives.getD [] },
              [OrchEffect.captureCall pendingBooking.orderId payerId],
              some normalized.message)
        | .returns captureId success errMsg =>
            if captureId = none ∧ success = some false then
              let rawMsg :=
                match errMsg with
                | some m => if m = "" then "PayPal payment capture failed." else m
                | none => "PayPal payment capture failed."
              let normalized := normalizeBookingError { message := rawMsg }
              ({ st with
                  error := some normalized.message
                  alternatives := normalized.alternatives.getD [] },
                [OrchEffect.captureCall pendingBooking.orderId payerId],
                some normalized.message)
            else
              let guestData : GuestData :=
                { guest := guestPayload
                  timezone := some
                    ((guestPayload.timezone
                      <|> pendingBooking.userTimezone).getD st.userTimezone)
                  paypal_order_id := some pendingBooking.orderId
                  paypal_capture_id := captureId }
              let step := createBookingForContext env st guestData
                (some pendingSlot) (some pendingEventType)
              match step.2.2 with
              | none =>
                  ({ step.1 with pendingStore := none },
                    OrchEffect.captureCall pendingBooking.orderId payerId
                      :: step.2.1 ++ [OrchEffect.deletePendingRecord], none)
              | some msg =>
                  (step.1,
                    OrchEffect.captureCall pendingBooking.orderId payerId :: step.2.1,
                    some msg)
  | _, _, _ =>
      (st, [], some "Saved PayPal booking context is invalid. Please book again.")

/-- `Boolean(token || payerId || cancelled)` of
`parsePayPalReturnContext()`. -/
def hasReturnParams (url : UrlState) : Bool :=
  jsTruthy url.token || jsTruthy url.payerId || url.cancelled

/-- The PayPal-return effect: guarded by the one-shot ref, it runs only when
callback parameters are present; cancellation discards the pending record;
a missing record or missing parameters surface an error; otherwise the
resumption runs and the callback parameters are stripped exactly once after
it completes. -/
def paypalReturnEffect (env : PayPalEnv) (st : OrchState) :
    OrchState × List OrchEffect :=
  if st.paypalReturnHandled then (st, [])
  else if !hasReturnParams st.url then (st, [])
  else
    let st0 := { st with paypalReturnHandled := true }
    if st0.url.cancelled then
      ({ st0 with
          pendingStore := none
          error := some "Payment was cancelled. No charges were made."
          url := ⟨none, none, false⟩ },
        [OrchEffect.deletePendingRecord, OrchEffect.clearReturnParams])
    else
      match st0.pendingStore with
      | none =>
          ({ st0 with
              error := some "Booking session expired. Please try booking again."
              url := ⟨none, none, false⟩ },
            [OrchEffect.clearReturnParams])
      | some pendingBooking =>
          if !jsTruthy st0.url.token || !jsTruthy st0.url.payerId then
            ({ st0 with
                error := some "Missing payment return details. Please try booking again."
                url := ⟨none, none, false⟩ },
              [OrchEffect.clearReturnParams])
          else
            let run := completePayPalBooking env st0 pendingBooking st0.url.payerId
            let st2 :=
              match run.2.2 with
              | some msg => if msg ≠ "" then { run.1 with error := some msg } else run.1
              | none => run.1
            ({ st2 with url := ⟨none, none, false⟩ },
              run.2.1 ++ [OrchEffect.clearReturnParams])

/-- A concrete stored guest payload for the resumption scenario. -/
def c1Guest : GuestPayload :=
  { guest_name := "Ada", guest_email := "ada@example.com" }

/-- A concrete stored pending PayPal booking for order `ord_1`. -/
def c1Pending : PendingPayPalBooking :=
  { orderId := "ord_1"
    payload := some c1Guest
    slot := some ⟨"2026-01-01T10:00:00Z", "2026-01-01T10:30:00Z", none, none, false⟩
    eventType := some { id := "ev-1" }
    userTimezone := some "UTC" }

/-- A concrete provider state returning from the PayPal approval page, with
live selection state that differs from the snapshot. -/
def c1State : OrchState :=
  { step := Step.SELECT_TIME
    eventType := some { id := "ev-OTHER" }
    selectedSlot := some ⟨"2026-02-02T09:00:00Z", "2026-02-02T09:30:00Z", none, none, false⟩
    userTimezone := "America/New_York"
    slots := []
    confirmedBooking := none
    error := none
    alternatives := []
    templateFallbackSuggestions := []
    activeTemplate := none
    isSubmitting := false
    pendingStore := some c1Pending
    url := ⟨some "tok-9", some "PAYER-7", false⟩
    paypalReturnHandled := false }

/-- A concrete resumption environment: capture succeeds with id `cap_1`,
booking creation succeeds. -/
def c1Env : PayPalEnv :=
  { capture := .returns (some "cap_1") none none
    createBooking := .ok "bk_1"
    meta := "meta-token"
    beforeBook := .absent }

/-- Lookup after overwriting the same key yields the new value. -/
theorem alookup_ainsert_self {α : Type} (k : String) (v : α) :
    ∀ l : List (String × α), alookup k (ainsert k v l) = some v := by
  intro l
  induction l with
  | nil => simp [ainsert, alookup]
  | cons hd tl ih =>
      by_cases h : hd.1 = k
      · simp [ainsert, alookup, h]
      · simpa [ainsert, alookup, h] using ih

/-- A member of `ainsert k v l` is either the inserted binding or a member of
`l`. -/
theorem mem_ainsert {α : Type} (k : String) (v : α) :
    ∀ (l : List (String × α)) (kv : String × α),
      kv ∈ ainsert k v l → kv = (k, v) ∨ kv ∈ l := by
  intro l
  induction l with
  | nil =>
      intro kv hkv
      simp only [ainsert, List.mem_singleton] at hkv
      exact Or.inl hkv
  | cons hd tl ih =>
      intro kv hkv
      by_cases h : hd.1 = k
      · simp only [ainsert, if_pos h, List.mem_cons] at hkv
        rcases hkv with h1 | h2
        · exact Or.inl h1
        · exact Or.inr (List.mem_cons_of_mem _ h2)
      · simp only [ainsert, if_neg h, List.mem_cons] at hkv
        rcases hkv with h1 | h2
        · exact Or.inr (h1 ▸ List.mem_cons_self _ _)
        · rcases ih kv h2 with h3 | h3
          · exact Or.inl h3
          · exact Or.inr (List.mem_cons_of_mem _ h3)

/-- Every binding of the store written back by the request-id generator is
unexpired at the read instant (given a positive TTL). -/
theorem getOrCreateClientRequestId_prunes (fresh : String) (now : Nat)
    (store : RequestIdStore) (scope : String) (ttlMs : Nat) (httl : 0 < ttlMs) :
    ∀ kv ∈ (getOrCreateClientRequestId fresh now store scope ttlMs).2,
      now < kv.2.expiresAt := by
  intro kv hkv
  have hclean : ∀ x ∈ store.filter (fun kv => decide (now < kv.2.expiresAt)),
      now < x.2.expiresAt := by
    intro x hx
    simpa using List.of_mem_filter hx
  simp only [getOrCreateClientRequestId] at hkv
  cases hm : alookup (truncScope scope)
      (store.filter fun kv => decide (now < kv.2.expiresAt)) with
  | some entry =>
      rw [hm] at hkv
      by_cases hid : entry.id = ""
      · simp only [hid, ne_eq, not_true_eq_false, if_false] at hkv
        rcases mem_ainsert _ _ _ _ hkv with h | h
        · subst h; exact Nat.lt_add_of_pos_right httl
        · exact hclean _ h
      · simp only [ne_eq, hid, not_false_eq_true, if_true] at hkv
        exact hclean _ hkv
  | none =>
      rw [hm] at hkv
      rcases mem_ainsert _ _ _ _ hkv with h | h
      · subst h; exact Nat.lt_add_of_pos_right httl
      · exact hclean _ h

/-- A `none` lookup means no binding carries the key. -/
theorem alookup_eq_none_iff {α : Type} (k : String) :
    ∀ l : List (String × α), alookup k l = none ↔ ∀ kv ∈ l, kv.1 ≠ k := by
  intro l
  induction l with
  | nil => simp [alookup]
  | cons hd tl ih =>
      by_cases h : hd.1 = k
      · simp [alookup, h]
      · simp only [alookup, if_neg h, List.mem_cons]
        constructor
        · intro hnone kv hkv
          rcases hkv with h1 | h2
          · exact h1 ▸ h
          · exact (ih.mp hnone) kv h2
        · intro hall
          exact ih.mpr fun kv hkv => hall kv (Or.inr hkv)

/-- When no binding carries the key, `ainsert` appends the new binding. -/
theorem ainsert_eq_append {α : Type} (k : String) (v : α) :
    ∀ l : List (String × α), (∀ kv ∈ l, kv.1 ≠ k) → ainsert k v l = l ++ [(k, v)] := by
  intro l
  induction l with
  | nil => intro _; simp [ainsert]
  | cons hd tl ih =>
      intro hall
      have hne : hd.1 ≠ k := hall hd (List.mem_cons_self _ _)
      simp only [ainsert, if_neg hne, List.cons_append, List.cons.injEq, true_and]
      exact ih fun kv hkv => hall kv (List.mem_cons_of_mem _ hkv)

/-- Lookup skips a prefix none of whose bindings carry the key. -/
theorem alookup_append_right {α : Type} (k : String) :
    ∀ l1 l2 : List (String × α), (∀ kv ∈ l1, kv.1 ≠ k) →
      alookup k (l1 ++ l2) = alookup k l2 := by
  intro l1 l2
  induction l1 with
  | nil => intro _; rfl
  | cons hd tl ih =>
      intro hall
      have hne : hd.1 ≠ k := hall hd (List.mem_cons_self _ _)
      simp only [List.cons_append, alookup, if_neg hne]
      exact ih fun kv hkv => hall kv (List.mem_cons_of_mem _ hkv)

/-- When the read finds no live entry for the scope, the generator returns the
freshly minted id and appends it to the pruned store. -/
theorem getOrCreateClientRequestId_mints (fresh : String) (now : Nat)
    (store : RequestIdStore) (scope : String) (ttlMs : Nat)
    (hnone : alookup (truncScope scope)
      (store.filter fun kv => now < kv.2.expiresAt) = none) :
    getOrCreateClientRequestId fresh now store scope ttlMs
      = (fresh, (store.filter fun kv => now < kv.2.expiresAt)
          ++ [(truncScope scope, ⟨fresh, now + ttlMs⟩)]) := by
  have happend := ainsert_eq_append (truncScope scope)
    (⟨fresh, now + ttlMs⟩ : RequestIdEntry)
    (store.filter fun kv => now < kv.2.expiresAt)
    ((alookup_eq_none_iff _ _).mp hnone)
  simp only [getOrCreateClientRequestId, hnone, happend]

/-- A later read with a scope key that truncates identically, performed before
the freshly minted entry's expiry instant, returns the same id. -/
theorem requestId_stable_of_truncEq (fresh1 fresh2 : String) (now1 now2 : Nat)
    (store : RequestIdStore) (s1 s2 : String)
    (hfresh : fresh1 ≠ "")
    (htrunc : truncScope s1 = truncScope s2)
    (hnone : alookup (truncScope s1)
      (store.filter fun kv => now1 < kv.2.expiresAt) = none)
    (hwindow : now2 < now1 + REQUEST_ID_TTL_MS) :
    (getOrCreateClientRequestId fresh2 now2
        (getOrCreateClientRequestId fresh1 now1 store s1).2 s2).1 = fresh1 := by
  rw [getOrCreateClientRequestId_mints fresh1 now1 store s1 _ hnone]
  have hkeys : ∀ kv ∈ store.filter fun kv => now1 < kv.2.expiresAt, kv.1 ≠ truncScope s1 :=
    (alookup_eq_none_iff _ _).mp hnone
  have hfiltered :
      ((store.filter fun kv => now1 < kv.2.expiresAt)
          ++ [(truncScope s1, (⟨fresh1, now1 + REQUEST_ID_TTL_MS⟩ : RequestIdEntry))]).filter
        (fun kv => now2 < kv.2.expiresAt)
      = ((store.filter fun kv => now1 < kv.2.expiresAt).filter
          fun kv => now2 < kv.2.expiresAt)
        ++ [(truncScope s1, (⟨fresh1, now1 + REQUEST_ID_TTL_MS⟩ : RequestIdEntry))] := by
    rw [List.filter_append]
    simp [hwindow]
  have hlook : alookup (truncScope s2)
      (((store.filter fun kv => now1 < kv.2.expiresAt)
          ++ [(truncScope s1, (⟨fresh1, now1 + REQUEST_ID_TTL_MS⟩ : RequestIdEntry))]).filter
        fun kv => now2 < kv.2.expiresAt)
      = some ⟨fresh1, now1 + REQUEST_ID_TTL_MS⟩ := by
    rw [hfiltered, ← htrunc]
    rw [alookup_append_right _ _ _
      (fun kv hkv => hkeys kv (List.mem_of_mem_filter hkv))]
    simp [alookup]
  simp only [getOrCreateClientRequestId, hlook, ne_eq, hfresh, not_false_eq_true, if_true]

/-- C3: provided persistent storage is available, two reads with the identical
scope key within the 72-hour TTL window return the identical id; an expired or
absent entry yields a freshly generated id; and expired entries are pruned
from the store on every read. -/
theorem claim_C3_clientRequestId_ttl_contract
    (fresh1 fresh2 : String) (now1 now2 : Nat) (store : RequestIdStore) (scope : String)
    (hfresh : fresh1 ≠ "")
    (hnone : alookup (truncScope scope)
      (store.filter fun kv => now1 < kv.2.expiresAt) = none) :
    (getOrCreateClientRequestId fresh1 now1 store scope).1 = fresh1
    ∧ (now2 < now1 + REQUEST_ID_TTL_MS →
        (getOrCreateClientRequestId fresh2 now2
            (getOrCreateClientRequestId fresh1 now1 store scope).2 scope).1
          = (getOrCreateClientRequestId fresh1 now1 store scope).1)
    ∧ (∀ kv ∈ (getOrCreateClientRequestId fresh1 now1 store scope).2,
        now1 < kv.2.expiresAt) := by
  have hmint := getOrCreateClientRequestId_mints fresh1 now1 store scope
    REQUEST_ID_TTL_MS hnone
  have h1 : (getOrCreateClientRequestId fresh1 now1 store scope).1 = fresh1 := by
    rw [hmint]
  refine ⟨h1, ?_, ?_⟩
  · intro hwindow
    rw [h1]
    exact requestId_stable_of_truncEq fresh1 fresh2 now1 now2 store scope scope
      hfresh rfl hnone hwindow
  · exact getOrCreateClientRequestId_prunes fresh1 now1 store scope
      REQUEST_ID_TTL_MS (by norm_num [REQUEST_ID_TTL_MS])

/-- Witness for C3 at a concrete store, scope and pair of instants. -/
theorem claim_C3_witness :
    ("uuid-1" : String) ≠ ""
    ∧ alookup (truncScope "sdk:public:ev:s:e:a@b.com")
        (([] : RequestIdStore).filter fun kv => 5 < kv.2.expiresAt) = none
    ∧ ((getOrCreateClientRequestId "uuid-1" 5 [] "sdk:public:ev:s:e:a@b.com").1 = "uuid-1"
      ∧ (1000 < 5 + REQUEST_ID_TTL_MS →
          (getOrCreateClientRequestId "uuid-2" 1000
              (getOrCreateClientRequestId "uuid-1" 5 [] "sdk:public:ev:s:e:a@b.com").2
              "sdk:public:ev:s:e:a@b.com").1
            = (getOrCreateClientRequestId "uuid-1" 5 [] "sdk:public:ev:s:e:a@b.com").1)
      ∧ (∀ kv ∈ (getOrCreateClientRequestId "uuid-1" 5 [] "sdk:public:ev:s:e:a@b.com").2,
          5 < kv.2.expiresAt)) :=
  ⟨by decide, rfl,
    claim_C3_clientRequestId_ttl_contract "uuid-1" "uuid-2" 5 1000 []
      "sdk:public:ev:s:e:a@b.com" (by decide) rfl⟩

/-- Truncation to 180 characters determines the stored scope key. -/
theorem truncScope_eq_of_slice_eq (s1 s2 : String)
    (h : sliceChars s1 180 = sliceChars s2 180) : truncScope s1 = truncScope s2 := by
  by_cases h1 : s1 = ""
  · have h2 : s2 = "" := by
      subst h1
      simp only [sliceChars] at h
      have hdata : s2.data.take 180 = [] := by
        have := congrArg String.data h
        simpa using this.symm
      rcases List.take_eq_nil_iff.mp hdata with h' | h'
      · omega
      · cases s2; simp_all
    rw [h1, h2]
  · by_cases h2 : s2 = ""
    · exfalso
      apply h1
      subst h2
      simp only [sliceChars] at h
      have hdata : s1.data.take 180 = [] := by
        have := congrArg String.data h
        simpa using this
      rcases List.take_eq_nil_iff.mp hdata with h' | h'
      · omega
      · cases s1; simp_all
    · simp only [truncScope, if_neg h1, if_neg h2]
      exact h

/-- C9: the generator truncates every scope key to its first 180 characters
before lookup and storage, so two scope keys agreeing on their first 180
characters share one client request id within the TTL window. -/
theorem claim_C9_scope_truncation
    (fresh1 fresh2 : String) (now1 now2 : Nat) (store : RequestIdStore) (s1 s2 : String)
    (hfresh : fresh1 ≠ "")
    (hslice : sliceChars s1 180 = sliceChars s2 180)
    (hnone : alookup (truncScope s1)
      (store.filter fun kv => now1 < kv.2.expiresAt) = none)
    (hwindow : now2 < now1 + REQUEST_ID_TTL_MS) :
    (getOrCreateClientRequestId fresh2 now2
        (getOrCreateClientRequestId fresh1 now1 store s1).2 s2).1
      = (getOrCreateClientRequestId fresh1 now1 store s1).1 := by
  have hmint := getOrCreateClientRequestId_mints fresh1 now1 store s1
    REQUEST_ID_TTL_MS hnone
  have h1 : (getOrCreateClientRequestId fresh1 now1 store s1).1 = fresh1 := by
    rw [hmint]
  rw [h1]
  exact requestId_stable_of_truncEq fresh1 fresh2 now1 now2 store s1 s2 hfresh
    (truncScope_eq_of_slice_eq s1 s2 hslice) hnone hwindow

set_option maxRecDepth 4000 in
/-- Witness for C9: two distinct scope keys agreeing on their first 180
characters (they differ only beyond position 180) share one id. -/
theorem claim_C9_witness :
    (let long := String.mk (List.replicate 180 'a')
    ("uuid-1" : String) ≠ ""
    ∧ sliceChars (long ++ "X") 180 = sliceChars (long ++ "Y") 180
    ∧ alookup (truncScope (long ++ "X"))
        (([] : RequestIdStore).filter fun kv => 0 < kv.2.expiresAt) = none
    ∧ 7 < 0 + REQUEST_ID_TTL_MS
    ∧ (getOrCreateClientRequestId "uuid-2" 7
          (getOrCreateClientRequestId "uuid-1" 0 [] (long ++ "X")).2 (long ++ "Y")).1
        = (getOrCreateClientRequestId "uuid-1" 0 [] (long ++ "X")).1) :=
  ⟨by decide, by decide, rfl, by decide,
    claim_C9_scope_truncation "uuid-1" "uuid-2" 0 7 []
      (String.mk (List.replicate 180 'a') ++ "X")
      (String.mk (List.replicate 180 'a') ++ "Y")
      (by decide) (by decide) rfl (by decide)⟩

/-! ## Theorems: conflict-suggestion fallback (C7) -/

/-- Indexed map evaluated at a position applies the callback at the shifted
index. -/
theorem mapWithIndexAux_get {α β : Type} (f : Nat → α → β) :
    ∀ (l : List α) (i k : Nat),
      (mapWithIndexAux f i l).get? k = (l.get? k).map (f (i + k)) := by
  intro l
  induction l with
  | nil => intro i k; simp [mapWithIndexAux]
  | cons a rest ih =>
      intro i k
      cases k with
      | zero => simp [mapWithIndexAux]
      | succ k' =>
          have harith : i + 1 + k' = i + (k' + 1) := by omega
          have := ih (i + 1) k'
          simp only [mapWithIndexAux, List.get?]
          rw [this, harith]

/-- The fallback ranking preserves the alternatives, in order. -/
theorem toFallbackAux_map_slot :
    ∀ (l : List Slot) (i : Nat),
      (mapWithIndexAux
        (fun index option =>
          (⟨option, max 40 (75 - 10 * (index : Int)),
            "Available alternative slot"⟩ : ConflictSuggestion)) i l).map
        ConflictSuggestion.slot = l := by
  intro l
  induction l with
  | nil => intro i; simp [mapWithIndexAux]
  | cons a rest ih => intro i; simp [mapWithIndexAux, ih]

/-- C7: for a SLOT_CONFLICT error, when the conflict-suggestion service is
absent, fails or returns an empty list, the synthesized suggestions are the
inline alternatives in order, the k-th (0-based) carrying confidence
`max 40 (75 - 10 * k)`; in particular alternatives `[A, B, C]` receive
confidences 75, 65, 55. -/
theorem claim_C7_conflict_fallback
    (err : BookingError) (A B C : Slot) (outcome : SuggestionServiceOutcome)
    (hcode : err.code = some "SLOT_CONFLICT")
    (hstatus : err.status ≠ some 429)
    (hsvc : outcome = .absent ∨ outcome = .failed ∨ outcome = .returned []) :
    synthesizeConflictSuggestions outcome ((normalizeBookingError err).alternatives.getD [])
      = toFallbackSuggestions (err.alternatives.getD [])
    ∧ (synthesizeConflictSuggestions outcome
          ((normalizeBookingError err).alternatives.getD [])).map ConflictSuggestion.slot
        = err.alternatives.getD []
    ∧ (∀ k : Nat,
        (synthesizeConflictSuggestions outcome
            ((normalizeBookingError err).alternatives.getD [])).get? k
          = ((err.alternatives.getD []).get? k).map
              (fun o => ⟨o, max 40 (75 - 10 * (k : Int)), "Available alternative slot"⟩))
    ∧ (err.alternatives = some [A, B, C] →
        synthesizeConflictSuggestions outcome
            ((normalizeBookingError err).alternatives.getD [])
          = [⟨A, 75, "Available alternative slot"⟩,
             ⟨B, 65, "Available alternative slot"⟩,
             ⟨C, 55, "Available alternative slot"⟩]) := by
  have halts : (normalizeBookingError err).alternatives = some (err.alternatives.getD []) := by
    simp only [normalizeBookingError, hcode]
    have h1 : (some "SLOT_CONFLICT" : Option String) ≠ some "OFFLINE" := by decide
    simp [h1, hstatus]
  have hsynth : synthesizeConflictSuggestions outcome
      ((normalizeBookingError err).alternatives.getD [])
      = toFallbackSuggestions (err.alternatives.getD []) := by
    rw [halts]
    rcases hsvc with h | h | h <;> subst h <;>
      simp [synthesizeConflictSuggestions]
  refine ⟨hsynth, ?_, ?_, ?_⟩
  · rw [hsynth]
    exact toFallbackAux_map_slot (err.alternatives.getD []) 0
  · intro k
    rw [hsynth]
    simpa using mapWithIndexAux_get _ (err.alternatives.getD []) 0 k
  · intro habc
    rw [hsynth, habc]
    simp only [Option.getD_some, toFallbackSuggestions, mapWithIndex, mapWithIndexAux]
    norm_num

/-- Witness for C7 on three concrete inline alternatives and an absent
service. -/
theorem claim_C7_witness :
    (let ca : Slot := ⟨"2026-01-01T10:00:00Z", "2026-01-01T10:30:00Z", none, none, false⟩
    let cb : Slot := ⟨"2026-01-01T11:00:00Z", "2026-01-01T11:30:00Z", none, none, false⟩
    let cc : Slot := ⟨"2026-01-01T12:00:00Z", "2026-01-01T12:30:00Z", none, none, false⟩
    let err : BookingError :=
      { message := "conflict", code := some "SLOT_CONFLICT", status := some 409,
        retryAfter := none, alternatives := some [ca, cb, cc], suggestions := none }
    err.code = some "SLOT_CONFLICT"
    ∧ err.status ≠ some 429
    ∧ (err.alternatives = some [ca, cb, cc] →
        synthesizeConflictSuggestions SuggestionServiceOutcome.absent
            ((normalizeBookingError err).alternatives.getD [])
          = [⟨ca, 75, "Available alternative slot"⟩,
             ⟨cb, 65, "Available alternative slot"⟩,
             ⟨cc, 55, "Available alternative slot"⟩])) := by
  refine ⟨rfl, by decide, ?_⟩
  exact (claim_C7_conflict_fallback _ _ _ _ _ rfl (by decide) (Or.inl rfl)).2.2.2

/-! ## Theorems: `goBack` step gating (C6) -/

/-- Counterexample to C6 as stated: in a single-event embed (one selectable
event type, selection mode `'single'`) the back action from CONFIRM is not
disabled — `goBack` still transitions to SELECT_TIME. -/
theorem claim_C6_counterexample :
    singleEventConfirmState.eventTypesCount < 2
    ∧ singleEventConfirmState.step = Step.CONFIRM
    ∧ singleEventConfirmState.selectionMode = some "single"
    ∧ (goBack singleEventConfirmState).step = Step.SELECT_TIME := by
  refine ⟨by decide, rfl, rfl, ?_⟩
  decide

/-- C6 as amended: the back action from CONFIRM always transitions to
SELECT_TIME regardless of how many event types are selectable; the gate sits
one step earlier: stepping back from SELECT_TIME to SELECT_EVENT happens
exactly when the embed's selection mode is not `'single'`, and is a no-op
otherwise. -/
theorem claim_C6_goBack_amended (s : NavState) :
    (s.step = Step.CONFIRM → (goBack s).step = Step.SELECT_TIME)
    ∧ (s.step = Step.SELECT_TIME →
        ((goBack s).step = Step.SELECT_EVENT ↔ s.selectionMode ≠ some "single"))
    ∧ (s.step = Step.SELECT_TIME → s.selectionMode = some "single" → goBack s = s) := by
  refine ⟨?_, ?_, ?_⟩
  · intro h
    simp [goBack, h, clearBookingErrorNav]
  · intro h
    by_cases hm : s.selectionMode = some "single"
    · have hne : ¬(s.step = Step.CONFIRM) := by rw [h]; decide
      simp [goBack, hne, h, hm, clearBookingErrorNav]
    · have hne : ¬(s.step = Step.CONFIRM) := by rw [h]; decide
      simp [goBack, hne, h, hm, clearBookingErrorNav]
  · intro h hm
    have hne : ¬(s.step = Step.CONFIRM) := by rw [h]; decide
    simp [goBack, hne, h, hm]

/-- Witness for C6 (amended) at concrete states: back from CONFIRM lands on
SELECT_TIME, back from SELECT_TIME in a single-selection embed is a no-op. -/
theorem claim_C6_witness :
    (let confirmMulti : NavState :=
      { step := Step.CONFIRM
        eventTypeId := some "ev-1"
        slots := []
        selectedSlot := none
        activeTemplate := none
        error := none
        alternatives := []
        templateFallbackSuggestions := []
        selectionMode := none
        eventTypesCount := 3 }
    let timeSingle : NavState :=
      { confirmMulti with step := Step.SELECT_TIME, selectionMode := some "single" }
    (goBack confirmMulti).step = Step.SELECT_TIME
    ∧ ((goBack timeSingle).step = Step.SELECT_EVENT ↔ timeSingle.selectionMode ≠ some "single")
    ∧ goBack timeSingle = timeSingle) := by
  refine ⟨?_, ?_, ?_⟩
  · exact (claim_C6_goBack_amended _).1 rfl
  · exact (claim_C6_goBack_amended _).2.1 rfl
  · exact (claim_C6_goBack_amended _).2.2 rfl rfl

/-! ## Theorems: form validation engine (C8) -/

/-- Any error a field contributes carries that field's id, and only visible
fields contribute. -/
theorem mem_fieldErrorsFor (answers : Answers) (f : FormField) :
    ∀ e ∈ fieldErrorsFor answers f, e.1 = f.id ∧ isFieldVisible f answers = true := by
  intro e he
  cases hv : isFieldVisible f answers with
  | false => simp [fieldErrorsFor, hv] at he
  | true =>
      refine ⟨?_, rfl⟩
      simp only [fieldErrorsFor, hv, Bool.not_true, Bool.false_eq_true, if_false] at he
      split at he
      · simp only [List.mem_singleton] at he
        rw [he]
      · split at he
        · simp at he
        · split at he
          · split at he
            · simp only [List.mem_singleton] at he
              rw [he]
            · simp at he
          · simp at he

/-- Errors collected over a schema come from one of its fields. -/
theorem collectFormErrors_mem (answers : Answers) :
    ∀ (fields : List FormField) (e : String × String),
      e ∈ collectFormErrors fields answers →
      ∃ f ∈ fields, e ∈ fieldErrorsFor answers f := by
  intro fields
  induction fields with
  | nil => intro e he; simp [collectFormErrors] at he
  | cons f fs ih =>
      intro e he
      simp only [collectFormErrors, List.mem_append] at he
      rcases he with h | h
      · exact ⟨f, List.mem_cons_self _ _, h⟩
      · rcases ih e h with ⟨g, hg, hge⟩
        exact ⟨g, List.mem_cons_of_mem _ hg, hge⟩

/-- A member field's own errors appear among the collected errors. -/
theorem mem_collectFormErrors_of_mem (answers : Answers) :
    ∀ (fields : List FormField) (f : FormField), f ∈ fields →
      ∀ e ∈ fieldErrorsFor answers f, e ∈ collectFormErrors fields answers := by
  intro fields
  induction fields with
  | nil => intro f hf; simp at hf
  | cons g gs ih =>
      intro f hf e he
      simp only [collectFormErrors, List.mem_append]
      rcases List.mem_cons.mp hf with h | h
      · exact Or.inl (h ▸ he)
      · exact Or.inr (ih f h e he)

/-- C8 as amended: a field whose conditional rule has its `show` flag set and
lists one or more conditions is visible exactly when every condition holds
(logical AND), with `equals` read as scalar equality (membership for array
answers); validation runs only over visible fields, so every recorded error
belongs to a visible field, while a visible required field with an empty
answer makes the result invalid with an error under its field id. -/
theorem claim_C8_form_engine (answers : Answers) (field : FormField)
    (rule : ConditionalRule) (fields : List FormField) :
    (field.conditional = some rule → rule.showFlag = true → rule.conditions ≠ [] →
      (isFieldVisible field answers = true ↔
        ∀ c ∈ rule.conditions, evalCondition answers c = true))
    ∧ (∀ fid v : String,
        (∀ l, alookup fid answers = some (.arr l) →
          (evalCondition answers ⟨fid, "equals", v⟩ = true ↔ v ∈ l))
        ∧ (∀ s, alookup fid answers = some (.str s) →
          (evalCondition answers ⟨fid, "equals", v⟩ = true ↔ s = v)))
    ∧ (∀ e ∈ (validateFormAnswers fields answers).2,
        ∃ f ∈ fields, f.id = e.1 ∧ isFieldVisible f answers = true)
    ∧ (field ∈ fields → isFieldVisible field answers = true → field.required = true →
        isEmptyFormAnswer (alookup field.id answers) = true →
        (field.id, "This field is required") ∈ (validateFormAnswers fields answers).2
          ∧ (validateFormAnswers fields answers).1 = false) := by
  refine ⟨?_, ?_, ?_, ?_⟩
  · intro hcond hshow hne
    cases hc : rule.conditions with
    | nil => exact absurd hc hne
    | cons c cs =>
        simp only [isFieldVisible, hcond, hshow, Bool.not_true, Bool.false_eq_true,
          if_false, hc, List.isEmpty_cons, Bool.true_eq_false]
        rw [← hc]
        exact List.all_eq_true
  · intro fid v
    constructor
    · intro l hl
      simp [evalCondition, hl, List.contains, List.elem_iff]
    · intro s hs
      simp [evalCondition, hs, jsAnswerString]
  · intro e he
    simp only [validateFormAnswers] at he
    rcases collectFormErrors_mem answers fields e he with ⟨f, hf, hfe⟩
    rcases mem_fieldErrorsFor answers f e hfe with ⟨hid, hvis⟩
    exact ⟨f, hf, hid.symm, hvis⟩
  · intro hmem hvis hreq hempty
    have hfe : fieldErrorsFor answers field = [(field.id, "This field is required")] := by
      simp [fieldErrorsFor, hvis, hreq, hempty]
    have hin : (field.id, "This field is required") ∈ collectFormErrors fields answers := by
      apply mem_collectFormErrors_of_mem answers fields field hmem
      rw [hfe]
      exact List.mem_singleton.mpr rfl
    refine ⟨hin, ?_⟩
    simp only [validateFormAnswers]
    cases herr : collectFormErrors fields answers with
    | nil => rw [herr] at hin; simp at hin
    | cons x xs => simp

/-- Witness for C8 at a concrete schema: `F2` requires `F1 = "yes"` via an
active conditional and is required; with `F1 = "yes"` and `F2` unanswered the
form is invalid with an error under `F2`. -/
theorem claim_C8_witness :
    (let f2 : FormField :=
      { id := "F2", type := "short_text", required := true,
        conditional := some ⟨true, [⟨"F1", "equals", "yes"⟩]⟩ }
    let yesAnswers : Answers := [("F1", FormValue.str "yes")]
    ((f2.conditional = some ⟨true, [⟨"F1", "equals", "yes"⟩]⟩)
    ∧ (isFieldVisible f2 yesAnswers = true ↔
        ∀ c ∈ [(⟨"F1", "equals", "yes"⟩ : FieldCondition)],
          evalCondition yesAnswers c = true))
    ∧ (evalCondition yesAnswers ⟨"F1", "equals", "yes"⟩ = true ↔ "yes" = "yes")
    ∧ (∀ e ∈ (validateFormAnswers [f2] yesAnswers).2,
        ∃ f ∈ [f2], f.id = e.1 ∧ isFieldVisible f yesAnswers = true)
    ∧ ((f2.id, "This field is required") ∈ (validateFormAnswers [f2] yesAnswers).2
        ∧ (validateFormAnswers [f2] yesAnswers).1 = false)) := by
  refine ⟨⟨rfl, ?_⟩, ?_, ?_, ?_⟩
  · exact (claim_C8_form_engine [("F1", FormValue.str "yes")]
      { id := "F2", type := "short_text", required := true,
        conditional := some ⟨true, [⟨"F1", "equals", "yes"⟩]⟩ }
      ⟨true, [⟨"F1", "equals", "yes"⟩]⟩
      [{ id := "F2", type := "short_text", required := true,
         conditional := some ⟨true, [⟨"F1", "equals", "yes"⟩]⟩ }]).1 rfl rfl (by decide)
  · exact ((claim_C8_form_engine [("F1", FormValue.str "yes")]
      { id := "F2", type := "short_text", required := true,
        conditional := some ⟨true, [⟨"F1", "equals", "yes"⟩]⟩ }
      ⟨true, [⟨"F1", "equals", "yes"⟩]⟩
      [{ id := "F2", type := "short_text", required := true,
         conditional := some ⟨true, [⟨"F1", "equals", "yes"⟩]⟩ }]).2.1 "F1" "yes").2
      "yes" rfl
  · exact (claim_C8_form_engine [("F1", FormValue.str "yes")]
      { id := "F2", type := "short_text", required := true,
        conditional := some ⟨true, [⟨"F1", "equals", "yes"⟩]⟩ }
      ⟨true, [⟨"F1", "equals", "yes"⟩]⟩
      [{ id := "F2", type := "short_text", required := true,
         conditional := some ⟨true, [⟨"F1", "equals", "yes"⟩]⟩ }]).2.2.1
  · exact (claim_C8_form_engine [("F1", FormValue.str "yes")]
      { id := "F2", type := "short_text", required := true,
        conditional := some ⟨true, [⟨"F1", "equals", "yes"⟩]⟩ }
      ⟨true, [⟨"F1", "equals", "yes"⟩]⟩
      [{ id := "F2", type := "short_text", required := true,
         conditional := some ⟨true, [⟨"F1", "equals", "yes"⟩]⟩ }]).2.2.2
      (List.mem_singleton.mpr rfl) (by decide) rfl (by decide)

/-- Counterexample to C8 as stated: a field whose conditional rule lists a
condition that fails is nevertheless visible when the rule's `show` flag is
falsy, and its required error does block validity. -/
theorem claim_C8_counterexample :
    (evalCondition [("F1", FormValue.str "no")] ⟨"F1", "equals", "yes"⟩ = false)
    ∧ isFieldVisible
        { id := "F2", type := "short_text", required := true,
          conditional := some ⟨false, [⟨"F1", "equals", "yes"⟩]⟩ }
        [("F1", FormValue.str "no")] = true
    ∧ (validateFormAnswers
        [{ id := "F2", type := "short_text", required := true,
           conditional := some ⟨false, [⟨"F1", "equals", "yes"⟩]⟩ }]
        [("F1", FormValue.str "no")]).1 = false := by
  refine ⟨by decide, by decide, by decide⟩

/-! ## Theorems: slot-availability cache (C4) -/

/-- A list is a Boolean prefix of itself extended by anything. -/
theorem isPrefixOf_append_self (l m : List Char) : l.isPrefixOf (l ++ m) = true := by
  induction l with
  | nil => simp [List.isPrefixOf]
  | cons c cs ih => simp [List.isPrefixOf, ih]

/-- Every cache key starts with its event type id followed by a colon. -/
theorem strStartsWith_mkCacheKey (id a b c : String) :
    strStartsWith (mkCacheKey id a b c) (id ++ ":") = true := by
  have hkey : mkCacheKey id a b c = (id ++ ":") ++ joinColon [a, b, c] := by
    simp [mkCacheKey, joinColon, String.append_assoc]
  rw [hkey]
  simp only [strStartsWith]
  have hdata : ((id ++ ":") ++ joinColon [a, b, c]).data
      = (id ++ ":").data ++ (joinColon [a, b, c]).data := rfl
  rw [hdata]
  exact isPrefixOf_append_self _ _

/-- After invalidating an event type, no key prefixed by it remains, so its
own cache keys look up to nothing. -/
theorem alookup_invalidate (id : String) (cache : List (String × CacheEntry))
    (k : String) (hk : strStartsWith k (id ++ ":") = true) :
    alookup k (invalidateAvailability (some id) cache) = none := by
  rw [alookup_eq_none_iff]
  intro kv hkv hkeq
  have hpred := List.of_mem_filter hkv
  rw [hkeq] at hpred
  simp only [hk, Bool.not_true] at hpred
  exact absurd hpred (by decide)

/-- A slot fetch whose cache lookup misses always performs one network
call. -/
theorem loadSlots_miss_networkCalls (st : AvailabilityState) (id sd ed tz : String)
    (now ttl : Nat) (out : SlotFetchOutcome) (hid : id ≠ "")
    (hmiss : alookup (mkCacheKey id sd ed tz) st.cache = none) :
    (loadSlots st false id sd ed tz now ttl out).networkCalls = st.networkCalls + 1 := by
  cases out <;> simp [loadSlots, hid, hmiss]

/-- C4 as amended: a cache miss performs one network fetch; an unexpired
entry then serves the identical `(event, window, timezone)` key without a
second network call; TTL expiry or force-refresh performs a second call; a
successful booking deletes exactly the entries whose key begins with the
event type id followed by `':'`, so the next fetch for that event type
performs a network call regardless of TTL. -/
theorem claim_C4_slot_cache (st0 : AvailabilityState) (id sd ed tz : String)
    (now1 now2 ttl : Nat) (m : SlotMap) (out2 : SlotFetchOutcome)
    (hid : id ≠ "")
    (hmiss : alookup (mkCacheKey id sd ed tz) st0.cache = none) :
    ((loadSlots st0 false id sd ed tz now1 ttl (.ok m)).networkCalls
      = st0.networkCalls + 1)
    ∧ (now2 < now1 + ttl →
        loadSlots (loadSlots st0 false id sd ed tz now1 ttl (.ok m))
            false id sd ed tz now2 ttl out2
          = { loadSlots st0 false id sd ed tz now1 ttl (.ok m) with slots := m })
    ∧ (now1 + ttl ≤ now2 →
        (loadSlots (loadSlots st0 false id sd ed tz now1 ttl (.ok m))
            false id sd ed tz now2 ttl out2).networkCalls
          = (loadSlots st0 false id sd ed tz now1 ttl (.ok m)).networkCalls + 1)
    ∧ ((loadSlots (loadSlots st0 false id sd ed tz now1 ttl (.ok m))
            true id sd ed tz now2 ttl out2).networkCalls
        = (loadSlots st0 false id sd ed tz now1 ttl (.ok m)).networkCalls + 1)
    ∧ (∀ kv ∈ (bookingSuccessInvalidate
          (loadSlots st0 false id sd ed tz now1 ttl (.ok m)) id).cache,
        strStartsWith kv.1 (id ++ ":") = false)
    ∧ (∀ kv ∈ (loadSlots st0 false id sd ed tz now1 ttl (.ok m)).cache,
        strStartsWith kv.1 (id ++ ":") = false →
        kv ∈ (bookingSuccessInvalidate
          (loadSlots st0 false id sd ed tz now1 ttl (.ok m)) id).cache)
    ∧ (∀ (now3 : Nat) (out3 : SlotFetchOutcome),
        (loadSlots (bookingSuccessInvalidate
            (loadSlots st0 false id sd ed tz now1 ttl (.ok m)) id)
            false id sd ed tz now3 ttl out3).networkCalls
          = (loadSlots st0 false id sd ed tz now1 ttl (.ok m)).networkCalls + 1) := by
  have hst1 : loadSlots st0 false id sd ed tz now1 ttl (.ok m)
      = { st0 with
          slots := m
          networkCalls := st0.networkCalls + 1
          cache := ainsert (mkCacheKey id sd ed tz) ⟨m, now1 + ttl⟩ st0.cache } := by
    simp [loadSlots, hid, hmiss]
  refine ⟨by rw [hst1], ?_, ?_, ?_, ?_, ?_, ?_⟩
  · intro hwindow
    rw [hst1]
    simp [loadSlots, hid, alookup_ainsert_self, hwindow]
  · intro hexpired
    have hnotlt : ¬(now2 < now1 + ttl) := by omega
    rw [hst1]
    cases out2 <;> simp [loadSlots, hid, alookup_ainsert_self, hnotlt]
  · rw [hst1]
    cases out2 <;> simp [loadSlots, hid]
  · intro kv hkv
    have hpred := List.of_mem_filter hkv
    simp only [Bool.not_eq_true'] at hpred
    exact hpred
  · intro kv hkv hks
    simp only [bookingSuccessInvalidate, invalidateAvailability]
    exact List.mem_filter.mpr ⟨hkv, by simp [hks]⟩
  · intro now3 out3
    have hnone : alookup (mkCacheKey id sd ed tz)
        (bookingSuccessInvalidate
          (loadSlots st0 false id sd ed tz now1 ttl (.ok m)) id).cache = none :=
      alookup_invalidate id _ _ (strStartsWith_mkCacheKey id sd ed tz)
    exact loadSlots_miss_networkCalls _ id sd ed tz now3 ttl out3 hid hnone

/-- Witness for C4 (amended) at a concrete cache history. -/
theorem claim_C4_witness :
    (("ev-1" : String) ≠ ""
    ∧ alookup (mkCacheKey "ev-1" "2026-01-01" "2026-01-08" "UTC")
        (⟨[], [], 0, none⟩ : AvailabilityState).cache = none
    ∧ ((loadSlots ⟨[], [], 0, none⟩ false "ev-1" "2026-01-01" "2026-01-08" "UTC"
          100 30000 (.ok [("2026-01-02", [⟨"a", "b", none, none, false⟩])])).networkCalls = 0 + 1)
    ∧ (200 < 100 + 30000 →
        loadSlots (loadSlots ⟨[], [], 0, none⟩ false "ev-1" "2026-01-01" "2026-01-08"
            "UTC" 100 30000 (.ok [("2026-01-02", [⟨"a", "b", none, none, false⟩])]))
          false "ev-1" "2026-01-01" "2026-01-08" "UTC" 200 30000 (.fail "net")
        = { loadSlots ⟨[], [], 0, none⟩ false "ev-1" "2026-01-01" "2026-01-08" "UTC"
              100 30000 (.ok [("2026-01-02", [⟨"a", "b", none, none, false⟩])]) with
            slots := [("2026-01-02", [⟨"a", "b", none, none, false⟩])] })) := by
  refine ⟨by decide, rfl, ?_, ?_⟩
  · exact (claim_C4_slot_cache ⟨[], [], 0, none⟩ "ev-1" "2026-01-01" "2026-01-08"
      "UTC" 100 200 30000 [("2026-01-02", [⟨"a", "b", none, none, false⟩])] (.fail "net")
      (by decide) rfl).1
  · exact (claim_C4_slot_cache ⟨[], [], 0, none⟩ "ev-1" "2026-01-01" "2026-01-08"
      "UTC" 100 200 30000 [("2026-01-02", [⟨"a", "b", none, none, false⟩])] (.fail "net")
      (by decide) rfl).2.1

/-- Counterexample to C4 as stated: after a successful booking for event type
`"1"`, a cache entry for event type `"12"` — whose key does begin with the
string `"1"` — survives invalidation; only keys prefixed `"1:"` are deleted. -/
theorem claim_C4_counterexample :
    (strStartsWith (mkCacheKey "12" "2026-01-01" "2026-01-08" "UTC") "1" = true)
    ∧ (bookingSuccessInvalidate
        (loadSlots ⟨[], [], 0, none⟩ false "12" "2026-01-01" "2026-01-08" "UTC"
          0 30000 (.ok [])) "1").cache
      = (loadSlots ⟨[], [], 0, none⟩ false "12" "2026-01-01" "2026-01-08" "UTC"
          0 30000 (.ok [])).cache
    ∧ (loadSlots ⟨[], [], 0, none⟩ false "12" "2026-01-01" "2026-01-08" "UTC"
        0 30000 (.ok [])).cache ≠ [] := by
  refine ⟨by decide, by decide, by decide⟩

/-! ## Theorems: API client retry policy (C5) -/

/-- Projection of a literal request trace. -/
@[simp] theorem ReqTrace_fetches_mk (r : ReqResult) (n : Nat) (d : List ℚ) :
    (ReqTrace.mk r n d).fetches = n := rfl

/-- Projection of a literal request trace. -/
@[simp] theorem ReqTrace_delays_mk (r : ReqResult) (n : Nat) (d : List ℚ) :
    (ReqTrace.mk r n d).delays = d := rfl

/-- Projection of a literal request trace. -/
@[simp] theorem ReqTrace_result_mk (r : ReqResult) (n : Nat) (d : List ℚ) :
    (ReqTrace.mk r n d).result = r := rfl

/-- The loop performs at most `fuel` fetches. -/
theorem requestGo_fetches_le (outcomes : Nat → FetchOutcome) (rand : Nat → ℚ)
    (maxRetries : Nat) (retryOn429 : Bool) :
    ∀ (fuel attempt : Nat),
      (requestGo outcomes rand maxRetries retryOn429 attempt fuel).fetches ≤ fuel := by
  intro fuel
  induction fuel with
  | zero => intro a; simp [requestGo]
  | succ f ih =>
      intro a
      have hrec := ih (a + 1)
      cases ho : outcomes a with
      | netFail =>
          by_cases hlt : a < maxRetries
          · simp only [requestGo, ho, if_pos hlt, ReqTrace_fetches_mk]
            omega
          · simp [requestGo, ho, hlt]
      | resp s ra =>
          simp only [requestGo, ho]
          split_ifs with h1 h2 h3 h4 <;> simp only [ReqTrace_fetches_mk] <;> omega

/-- One sleep precedes every fetch beyond the first. -/
theorem requestGo_delays_length (outcomes : Nat → FetchOutcome) (rand : Nat → ℚ)
    (maxRetries : Nat) (retryOn429 : Bool) :
    ∀ (fuel attempt : Nat), attempt + fuel = maxRetries + 1 → 0 < fuel →
      (requestGo outcomes rand maxRetries retryOn429 attempt fuel).delays.length + 1
        = (requestGo outcomes rand maxRetries retryOn429 attempt fuel).fetches := by
  intro fuel
  induction fuel with
  | zero => intro a _ hpos; omega
  | succ f ih =>
      intro a hinv _
      cases ho : outcomes a with
      | netFail =>
          by_cases hlt : a < maxRetries
          · have hrec := ih (a + 1) (by omega) (by omega)
            simp only [requestGo, ho, if_pos hlt, ReqTrace_fetches_mk,
              ReqTrace_delays_mk, List.length_cons]
            omega
          · simp [requestGo, ho, hlt]
      | resp s ra =>
          simp only [requestGo, ho]
          split_ifs with h1 h2 h3 h4 <;>
            simp only [ReqTrace_fetches_mk, ReqTrace_delays_mk, List.length_cons,
              List.length_nil]
          · have hrec := ih (a + 1) (by omega) (by omega)
            omega
          · have hrec := ih (a + 1) (by omega) (by omega)
            omega

/-- With `retryOn429` set, the sleep recorded after a failed attempt is the
Retry-After-derived wait for a 429 and the exponential backoff otherwise. -/
theorem requestGo_delay_at (outcomes : Nat → FetchOutcome) (rand : Nat → ℚ)
    (maxRetries : Nat) :
    ∀ (fuel attempt i : Nat),
      i + 1 < (requestGo outcomes rand maxRetries true attempt fuel).fetches →
      (requestGo outcomes rand maxRetries true attempt fuel).delays.get? i
        = some (expectedDelay outcomes rand (attempt + i)) := by
  intro fuel
  induction fuel with
  | zero => intro a i hi; simp [requestGo] at hi
  | succ f ih =>
      intro a i hi
      cases ho : outcomes a with
      | netFail =>
          by_cases hlt : a < maxRetries
          · simp only [requestGo, ho, if_pos hlt, ReqTrace_fetches_mk,
              ReqTrace_delays_mk] at hi ⊢
            cases i with
            | zero => simp [expectedDelay, ho]
            | succ i' =>
                have hrec := ih (a + 1) i' (by omega)
                simp only [List.get?]
                rw [hrec]
                have harith : a + 1 + i' = a + (i' + 1) := by omega
                rw [harith]
          · simp [requestGo, ho, hlt] at hi
      | resp s ra =>
          simp only [requestGo, ho] at hi ⊢
          split_ifs at hi ⊢ with h1 h2 h3 h4 <;>
            simp only [ReqTrace_fetches_mk, ReqTrace_delays_mk] at hi ⊢
          · omega
          · cases i with
            | zero =>
                have hs : s = 429 := h2.1
                simp [expectedDelay, ho, hs]
            | succ i' =>
                have hrec := ih (a + 1) i' (by omega)
                simp only [List.get?]
                rw [hrec]
                have harith : a + 1 + i' = a + (i' + 1) := by omega
                rw [harith]
          · omega
          · cases i with
            | zero =>
                have hs : s ≠ 429 := by
                  intro hcontra
                  exact h2 ⟨hcontra, trivial, h4⟩
                simp [expectedDelay, ho, hs]
            | succ i' =>
                have hrec := ih (a + 1) i' (by omega)
                simp only [List.get?]
                rw [hrec]
                have harith : a + 1 + i' = a + (i' + 1) := by omega
                rw [harith]
          · omega

/-- A thrown client error (4xx, not 429) terminates the loop at the attempt
that saw it, surfacing that error. -/
theorem requestGo_client_terminal (outcomes : Nat → FetchOutcome) (rand : Nat → ℚ)
    (maxRetries : Nat) (retryOn429 : Bool) :
    ∀ (fuel attempt i s : Nat) (ra : Option Nat),
      i < (requestGo outcomes rand maxRetries retryOn429 attempt fuel).fetches →
      outcomes (attempt + i) = .resp s ra → 400 ≤ s → s < 500 → s ≠ 429 →
      (requestGo outcomes rand maxRetries retryOn429 attempt fuel).fetches = i + 1
        ∧ (requestGo outcomes rand maxRetries retryOn429 attempt fuel).result
            = .httpError s := by
  intro fuel
  induction fuel with
  | zero => intro a i s ra hi; simp [requestGo] at hi
  | succ f ih =>
      intro a i s ra hi hout h400 h500 h429
      cases i with
      | zero =>
          simp only [Nat.add_zero] at hout
          have hnotok : ¬(200 ≤ s ∧ s < 300) := by omega
          have hnot429 : ¬(s = 429 ∧ retryOn429 = true ∧ a < maxRetries) := by
            intro hcontra; exact h429 hcontra.1
          have hclient : 400 ≤ s ∧ s < 500 ∧ s ≠ 429 := ⟨h400, h500, h429⟩
          simp [requestGo, hout, hnotok, hnot429, hclient]
      | succ i' =>
          have hout' : outcomes (a + 1 + i') = .resp s ra := by
            have harith : a + 1 + i' = a + (i' + 1) := by omega
            rw [harith]; exact hout
          cases ho : outcomes a with
          | netFail =>
              by_cases hlt : a < maxRetries
              · simp only [requestGo, ho, if_pos hlt, ReqTrace_fetches_mk,
                  ReqTrace_result_mk] at hi ⊢
                have hrec := ih (a + 1) i' s ra (by omega) hout' h400 h500 h429
                exact ⟨by omega, hrec.2⟩
              · simp [requestGo, ho, hlt] at hi
          | resp s0 ra0 =>
              simp only [requestGo, ho] at hi ⊢
              split_ifs at hi ⊢ with h1 h2 h3 h4 <;>
                simp only [ReqTrace_fetches_mk, ReqTrace_result_mk] at hi ⊢
              · omega
              · have hrec := ih (a + 1) i' s ra (by omega) hout' h400 h500 h429
                exact ⟨by omega, hrec.2⟩
              · omega
              · have hrec := ih (a + 1) i' s ra (by omega) hout' h400 h500 h429
                exact ⟨by omega, hrec.2⟩
              · omega

/-- C5: with the default retry configuration, an online `request` performs at
most 3 fetches (2 additional retries); network or non-429 failures are
retried after `min(1000 * 2^n, 12000) + jitter` milliseconds with jitter in
`[0, 350)`; a 4xx other than 429 is terminal at its attempt and surfaced; a
429 carrying a positive Retry-After of `r` seconds is retried after exactly
`r * 1000` milliseconds within the same budget, falling back to the
exponential backoff when no Retry-After value is available. -/
theorem claim_C5_retry_policy (outcomes : Nat → FetchOutcome) (rand : Nat → ℚ)
    (hrand : ∀ n, 0 ≤ rand n ∧ rand n < 1) :
    (request false outcomes rand).fetches ≤ 3
    ∧ (request false outcomes rand).delays.length + 1
        = (request false outcomes rand).fetches
    ∧ (∀ a, a + 1 < (request false outcomes rand).fetches →
        (outcomes a = .netFail ∨ ∃ s ra, outcomes a = .resp s ra ∧ s ≠ 429) →
        (request false outcomes rand).delays.get? a
            = some (((min (1000 * 2 ^ a) 12000 : ℕ) : ℚ) + rand a * 350)
          ∧ 0 ≤ rand a * 350 ∧ rand a * 350 < 350)
    ∧ (∀ (a s : Nat) (ra : Option Nat), a < (request false outcomes rand).fetches →
        outcomes a = .resp s ra → 400 ≤ s → s < 500 → s ≠ 429 →
        (request false outcomes rand).fetches = a + 1
          ∧ (request false outcomes rand).result = .httpError s)
    ∧ (∀ a r, a + 1 < (request false outcomes rand).fetches →
        outcomes a = .resp 429 (some r) → 0 < r →
        (request false outcomes rand).delays.get? a = some ((r * 1000 : ℕ) : ℚ))
    ∧ (∀ a, a + 1 < (request false outcomes rand).fetches →
        outcomes a = .resp 429 none →
        (request false outcomes rand).delays.get? a
          = some (((min (1000 * 2 ^ a) 12000 : ℕ) : ℚ) + rand a * 350)) := by
  have hreq : request false outcomes rand
      = requestGo outcomes rand 2 true 0 3 := by
    simp [request]
  refine ⟨?_, ?_, ?_, ?_, ?_, ?_⟩
  · rw [hreq]; exact requestGo_fetches_le outcomes rand 2 true 3 0
  · rw [hreq]; exact requestGo_delays_length outcomes rand 2 true 3 0 rfl (by omega)
  · intro a ha hout
    rw [hreq] at ha ⊢
    have hdelay := requestGo_delay_at outcomes rand 2 3 0 a ha
    simp only [Nat.zero_add] at hdelay
    refine ⟨?_, ?_, ?_⟩
    · rw [hdelay]
      rcases hout with h | ⟨s, ra, h, hs⟩
      · simp [expectedDelay, h, calculateBackoff]
      · simp [expectedDelay, h, hs, calculateBackoff]
    · exact mul_nonneg (hrand a).1 (by norm_num)
    · calc rand a * 350 < 1 * 350 := by
            exact mul_lt_mul_of_pos_right (hrand a).2 (by norm_num)
        _ = 350 := by norm_num
  · intro a s ra ha hout h400 h500 h429
    rw [hreq] at ha ⊢
    exact requestGo_client_terminal outcomes rand 2 true 3 0 a s ra ha
      (by simpa using hout) h400 h500 h429
  · intro a r ha hout hr
    rw [hreq] at ha ⊢
    have hdelay := requestGo_delay_at outcomes rand 2 3 0 a ha
    simp only [Nat.zero_add] at hdelay
    rw [hdelay]
    have hrne : r ≠ 0 := by omega
    simp [expectedDelay, hout, waitFor429, hrne]
  · intro a ha hout
    rw [hreq] at ha ⊢
    have hdelay := requestGo_delay_at outcomes rand 2 3 0 a ha
    simp only [Nat.zero_add] at hdelay
    rw [hdelay]
    simp [expectedDelay, hout, waitFor429, calculateBackoff]

/-- Witness for C5 at a concrete schedule (5xx, then 429 with Retry-After 7,
then success): the 429's retry waits exactly 7000 milliseconds. -/
theorem claim_C5_witness :
    (∀ n, 0 ≤ c5WitnessRand n ∧ c5WitnessRand n < 1)
    ∧ 1 + 1 < (request false c5WitnessOutcomes c5WitnessRand).fetches
    ∧ c5WitnessOutcomes 1 = .resp 429 (some 7)
    ∧ 0 < 7
    ∧ (request false c5WitnessOutcomes c5WitnessRand).delays.get? 1
        = some ((7 * 1000 : ℕ) : ℚ) := by
  have hrand : ∀ n, 0 ≤ c5WitnessRand n ∧ c5WitnessRand n < 1 := by
    intro n
    constructor <;> norm_num [c5WitnessRand]
  have hfetches : (request false c5WitnessOutcomes c5WitnessRand).fetches = 3 := by
    rfl
  refine ⟨hrand, by omega, rfl, by omega, ?_⟩
  exact (claim_C5_retry_policy c5WitnessOutcomes c5WitnessRand hrand).2.2.2.2.1
    1 7 (by omega) rfl (by omega)

/-! ## Theorems: honeypot guard (C10) -/

/-- C10: a submission with a non-empty honeypot field returns before doing
anything: no field errors are set, no brief screen is shown, no payment is
initiated, no booking-creation call is made, and the entered form state is
returned unchanged. -/
theorem claim_C10_honeypot_noop (ctx : CheckoutCtx) (st : BookingFormState)
    (h : st.honeypot ≠ "") :
    handleSubmit ctx st = (st, [])
    ∧ (handleSubmit ctx st).1.fieldErrors = st.fieldErrors
    ∧ (handleSubmit ctx st).1.showBrief = st.showBrief
    ∧ (handleSubmit ctx st).2 = [] := by
  have hmain : handleSubmit ctx st = (st, []) := by
    simp [handleSubmit, h]
  exact ⟨hmain, by rw [hmain], by rw [hmain], by rw [hmain]⟩

/-- Witness for C10 at a concrete filled form whose honeypot a bot filled. -/
theorem claim_C10_witness :
    (let st : BookingFormState :=
      { name := "Ada", email := "ada@example.com", phone := "", notes := ""
        answers := [], honeypot := "spam-link", fieldErrors := []
        inlineError := "", showBrief := false, briefError := none
        briefPendingPayload := none }
    let ctx : CheckoutCtx :=
      { isPaidEvent := false, eventTypeId := "ev-1", hasResolvedSlot := true
        hasBrief := false, formSchemaFields := [], selectedProvider := "stripe" }
    st.honeypot ≠ "" ∧ handleSubmit ctx st = (st, [])) := by
  refine ⟨by decide, ?_⟩
  exact (claim_C10_honeypot_noop
    { isPaidEvent := false, eventTypeId := "ev-1", hasResolvedSlot := true
      hasBrief := false, formSchemaFields := [], selectedProvider := "stripe" }
    { name := "Ada", email := "ada@example.com", phone := "", notes := ""
      answers := [], honeypot := "spam-link", fieldErrors := []
      inlineError := "", showBrief := false, briefError := none
      briefPendingPayload := none }
    (by decide)).1

/-! ## Theorems: at-most-one in-flight submission (C2) -/

/-- A successful in-place replacement keeps the length. -/
theorem replaceFirst_some_length (t q : SubPhase) :
    ∀ (l l' : List SubPhase), replaceFirst t (some q) l = some l' →
      l'.length = l.length := by
  intro l
  induction l with
  | nil => intro l' h; simp [replaceFirst] at h
  | cons p rest ih =>
      intro l' h
      by_cases hp : p = t
      · simp only [replaceFirst, if_pos hp] at h
        cases h
        simp
      · simp only [replaceFirst, if_neg hp, Option.map_eq_some'] at h
        rcases h with ⟨l'', h1, h2⟩
        subst h2
        simp [ih l'' h1]

/-- A successful removal shortens the list by one. -/
theorem replaceFirst_none_length (t : SubPhase) :
    ∀ (l l' : List SubPhase), replaceFirst t none l = some l' →
      l'.length + 1 = l.length := by
  intro l
  induction l with
  | nil => intro l' h; simp [replaceFirst] at h
  | cons p rest ih =>
      intro l' h
      by_cases hp : p = t
      · simp only [replaceFirst, if_pos hp] at h
        cases h
        simp
      · simp only [replaceFirst, if_neg hp, Option.map_eq_some'] at h
        rcases h with ⟨l'', h1, h2⟩
        subst h2
        simp [← ih l'' h1]

/-- A successful replacement needs a non-empty list. -/
theorem replaceFirst_ne_nil (t : SubPhase) (n : Option SubPhase)
    (l l' : List SubPhase) (h : replaceFirst t n l = some l') : l ≠ [] := by
  intro hnil
  subst hnil
  simp [replaceFirst] at h

/-- An enabled submit button implies `isSubmitting` was false. -/
theorem submitButtonDisabled_false_isSubmitting (ctx : SubmitCtx) (b : Bool)
    (h : submitButtonDisabled ctx b = false) : b = false := by
  simp only [submitButtonDisabled, Bool.or_eq_false_iff] at h
  exact h.1.1.2

/-- Every scheduler step preserves the gating invariant. -/
theorem stepSubmit_inv (ctx : SubmitCtx) (s : SubmitState) (e : SubmitEvent)
    (h : SubmitInv s) : SubmitInv (stepSubmit ctx s e) := by
  obtain ⟨hlen, hiff⟩ := h
  cases e with
  | trigger =>
      by_cases hdis : submitButtonDisabled ctx s.isSubmitting = true
      · simpa [stepSubmit, hdis, SubmitInv] using ⟨hlen, hiff⟩
      · have hdis' : submitButtonDisabled ctx s.isSubmitting = false := by
          revert hdis; cases submitButtonDisabled ctx s.isSubmitting <;> simp
        have hsub : s.isSubmitting = false :=
          submitButtonDisabled_false_isSubmitting ctx _ hdis'
        by_cases hslot : ctx.hasSlotAndEventType = true
        · have hnil : s.procs = [] := by
            by_contra hne
            have := hiff.mpr hne
            rw [hsub] at this
            exact Bool.false_ne_true this
          simp only [stepSubmit, hdis', Bool.false_eq_true, if_false, hslot,
            Bool.not_true, SubmitInv]
          constructor
          · simp [hnil]
          · simp
        · have hslot' : ctx.hasSlotAndEventType = false := by
            revert hslot; cases ctx.hasSlotAndEventType <;> simp
          simpa [stepSubmit, hdis', hslot', SubmitInv] using ⟨hlen, hiff⟩
  | metaResolved veto =>
      have hone : ∀ procs' : List SubPhase, s.procs ≠ [] →
          procs'.length + 1 = s.procs.length → procs' = [] := by
        intro procs' hne hlen'
        have h1 : 1 ≤ s.procs.length := by
          cases hl : s.procs with
          | nil => exact absurd hl hne
          | cons a l => simp
        have : procs'.length = 0 := by omega
        exact List.length_eq_zero.mp this
      cases veto with
      | true =>
          simp only [stepSubmit, if_true]
          cases hrep : replaceFirst .resolvingMeta none s.procs with
          | none => exact ⟨hlen, hiff⟩
          | some procs' =>
              have hne := replaceFirst_ne_nil _ _ _ _ hrep
              have hnil' : procs' = [] :=
                hone procs' hne (replaceFirst_none_length _ _ _ hrep)
              simp [SubmitInv, hnil']
      | false =>
          simp only [stepSubmit, Bool.false_eq_true, if_false]
          cases hrep : replaceFirst .resolvingMeta (some .awaitingCreate) s.procs with
          | none => exact ⟨hlen, hiff⟩
          | some procs' =>
              have hne := replaceFirst_ne_nil _ _ _ _ hrep
              have hsubmitting : s.isSubmitting = true := hiff.mpr hne
              have hlen' := replaceFirst_some_length _ _ _ _ hrep
              have hne' : procs' ≠ [] := by
                intro hcontra
                rw [hcontra] at hlen'
                cases hl : s.procs with
                | nil => exact hne hl
                | cons a l => rw [hl] at hlen'; simp at hlen'
              refine ⟨by simp only [SubmitState.procs]; omega, ?_⟩
              simp [hsubmitting, hne']
  | createSettled =>
      have hone : ∀ procs' : List SubPhase, s.procs ≠ [] →
          procs'.length + 1 = s.procs.length → procs' = [] := by
        intro procs' hne hlen'
        have h1 : 1 ≤ s.procs.length := by
          cases hl : s.procs with
          | nil => exact absurd hl hne
          | cons a l => simp
        have : procs'.length = 0 := by omega
        exact List.length_eq_zero.mp this
      simp only [stepSubmit]
      cases hrep : replaceFirst .awaitingCreate none s.procs with
      | none => exact ⟨hlen, hiff⟩
      | some procs' =>
          have hne := replaceFirst_ne_nil _ _ _ _ hrep
          have hnil' : procs' = [] :=
            hone procs' hne (replaceFirst_none_length _ _ _ hrep)
          simp [SubmitInv, hnil']

/-- Running any event sequence preserves the gating invariant. -/
theorem runSubmit_inv (ctx : SubmitCtx) :
    ∀ (events : List SubmitEvent) (s : SubmitState), SubmitInv s →
      SubmitInv (runSubmit ctx s events) := by
  intro events
  induction events with
  | nil => intro s h; exact h
  | cons e es ih => intro s h; exact ih _ (stepSubmit_inv ctx s e h)

/-- Running a concatenated event sequence runs the pieces in order. -/
theorem runSubmit_append (ctx : SubmitCtx) :
    ∀ (l1 l2 : List SubmitEvent) (s : SubmitState),
      runSubmit ctx s (l1 ++ l2) = runSubmit ctx (runSubmit ctx s l1) l2 := by
  intro l1
  induction l1 with
  | nil => intro l2 s; rfl
  | cons e es ih => intro l2 s; simp only [List.cons_append, runSubmit]; exact ih l2 _

/-- A submit trigger while a submission is pending is a no-op: the disabled
button fires no event. -/
theorem stepSubmit_trigger_noop (ctx : SubmitCtx) (s : SubmitState)
    (h : s.isSubmitting = true) : stepSubmit ctx s .trigger = s := by
  simp [stepSubmit, submitButtonDisabled, h]

/-- C2: starting idle with an enabled submit button and a chosen slot, a
submission sequence that triggers submit again any number of times while the
first attempt is pending issues exactly one booking-creation network call;
and no reachable state ever has two invocations in flight. -/
theorem claim_C2_single_inflight_submission (ctx : SubmitCtx)
    (henabled : submitButtonDisabled ctx false = false)
    (hslot : ctx.hasSlotAndEventType = true) :
    (∀ events : List SubmitEvent,
      (runSubmit ctx initSubmitState events).procs.length ≤ 1)
    ∧ (∀ k : Nat,
      (runSubmit ctx initSubmitState
        (SubmitEvent.trigger :: (List.replicate k SubmitEvent.trigger
          ++ [SubmitEvent.metaResolved false, SubmitEvent.createSettled]))).bookingCalls
        = 1) := by
  constructor
  · intro events
    exact (runSubmit_inv ctx events initSubmitState
      ⟨by simp [initSubmitState], by simp [initSubmitState]⟩).1
  · intro k
    have h1 : stepSubmit ctx initSubmitState .trigger
        = ⟨[SubPhase.resolvingMeta], true, 0⟩ := by
      simp [stepSubmit, initSubmitState, henabled, hslot]
    have h2 : runSubmit ctx ⟨[SubPhase.resolvingMeta], true, 0⟩
        (List.replicate k SubmitEvent.trigger)
        = ⟨[SubPhase.resolvingMeta], true, 0⟩ := by
      induction k with
      | zero => rfl
      | succ k' ih =>
          rw [List.replicate_succ]
          simp only [runSubmit]
          rw [stepSubmit_trigger_noop ctx _ rfl]
          exact ih
    simp only [runSubmit]
    rw [h1, runSubmit_append, h2]
    rfl

/-- Witness for C2: a valid free-event form, submit double-triggered while
pending, one booking-creation call in total. -/
theorem claim_C2_witness :
    (let ctx : SubmitCtx :=
      { isValid := true, isCreatingPayment := false, isPaidEvent := false
        isLoadingPaymentInfo := false, hasSlotAndEventType := true }
    submitButtonDisabled ctx false = false
    ∧ ctx.hasSlotAndEventType = true
    ∧ (runSubmit ctx initSubmitState
        [SubmitEvent.trigger, SubmitEvent.trigger, SubmitEvent.trigger]).procs.length ≤ 1
    ∧ (runSubmit ctx initSubmitState
        (SubmitEvent.trigger :: (List.replicate 1 SubmitEvent.trigger
          ++ [SubmitEvent.metaResolved false, SubmitEvent.createSettled]))).bookingCalls
        = 1) := by
  refine ⟨by decide, rfl, ?_, ?_⟩
  · exact (claim_C2_single_inflight_submission
      { isValid := true, isCreatingPayment := false, isPaidEvent := false
        isLoadingPaymentInfo := false, hasSlotAndEventType := true }
      (by decide) rfl).1 [SubmitEvent.trigger, SubmitEvent.trigger, SubmitEvent.trigger]
  · exact (claim_C2_single_inflight_submission
      { isValid := true, isCreatingPayment := false, isPaidEvent := false
        isLoadingPaymentInfo := false, hasSlotAndEventType := true }
      (by decide) rfl).2 1

/-! ## Theorems: PayPal-return resumption (C1) -/

/-- `<|>` on an already-present option keeps it. -/
theorem some_orElse_eq {α : Type} (a : α) (o : Option α) : (some a <|> o) = some a := rfl

/-- C1: on a page load whose URL carries both the approval token and the
PayerID, with a stored valid PendingPayPalBooking, the resumption captures
the stored order first and then creates the booking from the snapshotted
guest payload, slot and event type (independent of the live selection),
attaching the stored order id and the returned capture id; the pending
record is deleted exactly when booking creation succeeds (a capture failure
issues no booking call and keeps the record); the callback parameters are
stripped after resumption completes; and a run without callback parameters
performs none of these steps. -/
theorem claim_C1_paypal_resumption
    (st : OrchState) (p : PendingPayPalBooking) (g : GuestPayload) (sl : Slot)
    (et : EventType) (tk pid : String) (env : PayPalEnv)
    (hhandled : st.paypalReturnHandled = false)
    (hpending : st.pendingStore = some p)
    (hpayload : p.payload = some g) (hslot : p.slot = some sl)
    (hevent : p.eventType = some et)
    (horder : p.orderId ≠ "") (hstart : sl.start ≠ "") (hend : sl.endTime ≠ "")
    (hid : et.id ≠ "")
    (htoken : st.url.token = some tk) (htk : tk ≠ "")
    (hpayer : st.url.payerId = some pid) (hpid : pid ≠ "")
    (hcancel : st.url.cancelled = false)
    (hhook : env.beforeBook = .absent) :
    (∀ (cid : String) (success : Option Bool) (errMsg : Option String) (bid : String),
      env.capture = .returns (some cid) success errMsg →
      env.createBooking = .ok bid →
      (paypalReturnEffect env st).2
          = [OrchEffect.captureCall p.orderId (some pid),
             OrchEffect.createBookingCall
               { event_type_id := et.id
                 start_time := sl.start
                 end_time := sl.endTime
                 timezone := (g.timezone <|> p.userTimezone).getD st.userTimezone
                 guest := g
                 paypal_order_id := some p.orderId
                 paypal_capture_id := some cid
                 meta := env.meta },
             OrchEffect.deletePendingRecord,
             OrchEffect.clearReturnParams]
        ∧ (paypalReturnEffect env st).1.pendingStore = none
        ∧ (paypalReturnEffect env st).1.step = Step.SUCCESS)
    ∧ (∀ (cid : String) (success : Option Bool) (errMsg : Option String) (e : BookingError),
      env.capture = .returns (some cid) success errMsg →
      env.createBooking = .fail e →
      (paypalReturnEffect env st).2
          = [OrchEffect.captureCall p.orderId (some pid),
             OrchEffect.createBookingCall
               { event_type_id := et.id
                 start_time := sl.start
                 end_time := sl.endTime
                 timezone := (g.timezone <|> p.userTimezone).getD st.userTimezone
                 guest := g
                 paypal_order_id := some p.orderId
                 paypal_capture_id := some cid
                 meta := env.meta },
             OrchEffect.clearReturnParams]
        ∧ (paypalReturnEffect env st).1.pendingStore = some p)
    ∧ (∀ m, env.capture = .throws m →
      (paypalReturnEffect env st).2
          = [OrchEffect.captureCall p.orderId (some pid), OrchEffect.clearReturnParams]
        ∧ (paypalReturnEffect env st).1.pendingStore = some p)
    ∧ ((paypalReturnEffect env st).1.url = ⟨none, none, false⟩
        ∧ (paypalReturnEffect env st).1.paypalReturnHandled = true)
    ∧ (∀ (env' : PayPalEnv) (s : OrchState), hasReturnParams s.url = false →
      paypalReturnEffect env' s = (s, [])) := by
  have hparams : hasReturnParams st.url = true := by
    simp [hasReturnParams, jsTruthy, htoken, htk]
  have hjs1 : jsTruthy (some tk) = true := by simp [jsTruthy, htk]
  have hjs2 : jsTruthy (some pid) = true := by simp [jsTruthy, hpid]
  refine ⟨?_, ?_, ?_, ?_, ?_⟩
  · intro cid success errMsg bid hcap hcreate
    refine ⟨?_, ?_, ?_⟩ <;>
      simp [paypalReturnEffect, completePayPalBooking, createBookingForContext,
        hhandled, hparams, hcancel, hpending, hpayload, hslot, hevent, horder, hstart, hend, hid,
        hcap, hcreate, hhook, htoken, hjs1, hjs2, hpayer, some_orElse_eq]
  · intro cid success errMsg e hcap hcreate
    refine ⟨?_, ?_⟩ <;>
      simp [paypalReturnEffect, completePayPalBooking, createBookingForContext,
        hhandled, hparams, hcancel, hpending, hpayload, hslot, hevent, horder, hstart, hend, hid,
        hcap, hcreate, hhook, htoken, hjs1, hjs2, hpayer, some_orElse_eq]
  · intro m hcap
    refine ⟨?_, ?_⟩ <;>
      simp [paypalReturnEffect, completePayPalBooking,
        hhandled, hparams, hcancel, hpending, hpayload, hslot, hevent, horder, hstart, hend, hid,
        hcap, htoken, hjs1, hjs2, hpayer]
  · constructor <;>
    · cases hcap : env.capture with
      | throws m =>
          simp [paypalReturnEffect, completePayPalBooking,
            hhandled, hparams, hcancel, hpending, hpayload, hslot, hevent, horder, hstart, hend, hid,
            hcap, htoken, hjs1, hjs2, hpayer]
      | returns captureId success errMsg =>
          by_cases hfailed : captureId = none ∧ success = some false
          · simp [paypalReturnEffect, completePayPalBooking,
              hhandled, hparams, hcancel, hpending, hpayload, hslot, hevent, horder, hstart, hend, hid,
              hcap, hfailed, htoken, hjs1, hjs2, hpayer]
          · cases hcreate : env.createBooking with
            | ok bid =>
                simp [paypalReturnEffect, completePayPalBooking,
                  createBookingForContext, hhandled, hparams, hcancel, hpending,
                  hpayload, hslot, hevent, horder, hstart, hend, hid, hcap, hfailed,
                  hcreate, hhook, htoken, hjs1, hjs2, hpayer, some_orElse_eq]
            | fail e =>
                simp [paypalReturnEffect, completePayPalBooking,
                  createBookingForContext, hhandled, hparams, hcancel, hpending,
                  hpayload, hslot, hevent, horder, hstart, hend, hid, hcap, hfailed,
                  hcreate, hhook, htoken, hjs1, hjs2, hpayer, some_orElse_eq]
  · intro env' s h
    cases hh : s.paypalReturnHandled <;> simp [paypalReturnEffect, hh, h]

/-- Witness for C1 at the concrete scenario: stored order `ord_1`, return
URL with token and PayerID, successful capture `cap_1` and booking `bk_1`. -/
theorem claim_C1_witness :
    c1State.paypalReturnHandled = false
    ∧ c1State.pendingStore = some c1Pending
    ∧ c1Env.capture = .returns (some "cap_1") none none
    ∧ c1Env.createBooking = .ok "bk_1"
    ∧ ((paypalReturnEffect c1Env c1State).2
        = [OrchEffect.captureCall "ord_1" (some "PAYER-7"),
           OrchEffect.createBookingCall
             { event_type_id := "ev-1"
               start_time := "2026-01-01T10:00:00Z"
               end_time := "2026-01-01T10:30:00Z"
               timezone := "UTC"
               guest := c1Guest
               paypal_order_id := some "ord_1"
               paypal_capture_id := some "cap_1"
               meta := "meta-token" },
           OrchEffect.deletePendingRecord,
           OrchEffect.clearReturnParams]
      ∧ (paypalReturnEffect c1Env c1State).1.pendingStore = none
      ∧ (paypalReturnEffect c1Env c1State).1.step = Step.SUCCESS) := by
  refine ⟨rfl, rfl, rfl, rfl, ?_⟩
  have := (claim_C1_paypal_resumption c1State c1Pending c1Guest
    ⟨"2026-01-01T10:00:00Z", "2026-01-01T10:30:00Z", none, none, false⟩
    { id := "ev-1" } "tok-9" "PAYER-7" c1Env
    rfl rfl rfl rfl rfl (by decide) (by decide) (by decide) (by decide)
    rfl (by decide) rfl (by decide) rfl rfl).1
    "cap_1" none none "bk_1" rfl rfl
  simpa [c1Pending, c1Guest, c1Env] using this

end Calemly
